import Mathlib

/-!
Verification of the pixiu decision engine against its specification.

The development shallowly embeds the Python source in Lean:
pure functions become Lean functions over `ℚ` (Python floats are modelled
by exact rationals), fallible calls return `Option`/`Except`, database
tables become lists of rows, and dates (`YYYY-MM-DD` strings, which are
totally ordered lexicographically and hence chronologically) become day
numbers in `ℕ`.
-/

namespace Pixiu

/-- Python `round(x, 2)`: round to two decimal places.  Python rounds
half-to-even on the underlying binary float; this model rounds half up
(`round q = ⌊q + 1/2⌋`).  The two agree at every non-tie point, and no
value evaluated in this development is a tie. -/
def round2 (q : ℚ) : ℚ := ((round (q * 100) : ℤ) : ℚ) / 100

/-- Python `round(x, 4)` (same tie caveat as `round2`). -/
def round4 (q : ℚ) : ℚ := ((round (q * 10000) : ℤ) : ℚ) / 10000

/-- Python `int(x)`: truncation toward zero. -/
def pyInt (q : ℚ) : ℤ := if 0 ≤ q then ⌊q⌋ else -⌊-q⌋

/-! ## Signal data model (src/strategy/base.py) -/

/-- `SignalType` enum from src/strategy/base.py. -/
inductive SignalType
  | strongBuy
  | buy
  | hold
  | sell
  | strongSell
deriving DecidableEq, Repr

/-- `Signal.is_buy`: membership in (STRONG_BUY, BUY). -/
def SignalType.isBuyT : SignalType → Bool
  | .strongBuy => true
  | .buy => true
  | _ => false

/-- `Signal.is_sell`: membership in (STRONG_SELL, SELL). -/
def SignalType.isSellT : SignalType → Bool
  | .strongSell => true
  | .sell => true
  | _ => false

/-- `Signal` dataclass from src/strategy/base.py.  The source stores
`reason` as one string with newline-joined lines; we keep the list of
lines.  `target_amount` and the free-form `metadata` dict are not read
by any claim and are omitted. -/
structure Signal where
  fundCode : String
  signalType : SignalType
  confidence : ℚ
  reason : List String
  strategyName : String
  priority : Int
deriving DecidableEq, Repr

/-! ## Composite fuser (src/strategy/portfolio.py, generate_composite_signals)

The merge loop of `generate_composite_signals` processes one bucket
`fund_signals[fund_code] = [(sig, weight), ...]` at a time. -/

/-- `buy_score = Σ sig.confidence * weight` over buy signals, accumulated
in iteration order. -/
def buyScore (l : List (Signal × ℚ)) : ℚ :=
  l.foldl (fun acc p => if p.1.signalType.isBuyT then acc + p.1.confidence * p.2 else acc) 0

/-- `sell_score = Σ sig.confidence * weight` over sell signals. -/
def sellScore (l : List (Signal × ℚ)) : ℚ :=
  l.foldl (fun acc p => if p.1.signalType.isSellT then acc + p.1.confidence * p.2 else acc) 0

/-- `buy_strategies`: strategy names of contributing buy signals, in order. -/
def buyStrategies (l : List (Signal × ℚ)) : List String :=
  l.filterMap (fun p => if p.1.signalType.isBuyT then some p.1.strategyName else none)

/-- `sell_strategies`: strategy names of contributing sell signals, in order. -/
def sellStrategies (l : List (Signal × ℚ)) : List String :=
  l.filterMap (fun p => if p.1.signalType.isSellT then some p.1.strategyName else none)

/-- The `reasons` list accumulated over buy and sell signals:
`f"[{sig.strategy_name}] {sig.reason}"`.  A source signal's reason is a
single line, kept here as the join of its line list. -/
def bucketReasons (l : List (Signal × ℚ)) : List String :=
  l.filterMap (fun p =>
    if p.1.signalType.isBuyT || p.1.signalType.isSellT then
      some ("[" ++ p.1.strategyName ++ "] " ++ String.intercalate "\n" p.1.reason)
    else none)

/-- The `"[conflict] 策略冲突 (买:... vs 卖:...)"` line appended on conflict. -/
def conflictAnno (l : List (Signal × ℚ)) : String :=
  "[conflict] 策略冲突 (买:" ++ String.intercalate "," (buyStrategies l) ++
    " vs 卖:" ++ String.intercalate "," (sellStrategies l) ++ ")"

/-- Body of the per-bucket merge in `generate_composite_signals`
(src/strategy/portfolio.py lines 169-223).  Returns `none` when the
bucket is dropped (`total < 0.1`) or resolves to HOLD. -/
def mergeBucket (fundCode : String) (l : List (Signal × ℚ)) : Option Signal :=
  let b := buyScore l
  let s := sellScore l
  let net := b - s
  let total := b + s
  if total < 1/10 then none
  else
    let confidence0 := |net| / max total (1/100)
    let hasConflict := !(buyStrategies l).isEmpty && !(sellStrategies l).isEmpty
    let conflictFrac := min b s / max total (1/100)
    let confidence1 := if hasConflict then confidence0 * (1 - conflictFrac * (1/2)) else confidence0
    let reasons := bucketReasons l ++ (if hasConflict then [conflictAnno l] else [])
    let st : SignalType :=
      if net > 1/5 then (if net > 1/2 then .strongBuy else .buy)
      else if net < -(1/5) then (if net < -(1/2) then .strongSell else .sell)
      else .hold
    if st = .hold then none
    else some {
      fundCode := fundCode
      signalType := st
      confidence := round2 (min confidence1 (19/20))
      reason := reasons
      strategyName := "composite"
      priority := ((pyInt (net * 100)).natAbs : ℤ)
    }

/-- The full merge stage: one optional composite signal per bucket. -/
def mergeBuckets (buckets : List (String × List (Signal × ℚ))) : List Signal :=
  buckets.filterMap (fun p => mergeBucket p.1 p.2)

/-- `composite.sort(key=lambda s: s.priority, reverse=True)`: stable sort
by priority descending. -/
def prioGe (a b : Signal) : Prop := b.priority ≤ a.priority

instance : DecidableRel prioGe := fun a b => inferInstanceAs (Decidable (b.priority ≤ a.priority))

instance : IsTotal Signal prioGe := ⟨fun a b => le_total b.priority a.priority⟩

instance : IsTrans Signal prioGe := ⟨fun _ _ _ h1 h2 => le_trans h2 h1⟩

/-- Stable descending sort of the composite list. -/
def sortByPriorityDesc (l : List Signal) : List Signal :=
  List.insertionSort prioGe l

/-- Tail of `generate_composite_signals` (lines 225-234): sort the merged
list, then apply the signal guard inside `try/except`; if the guard
raises, the sorted unguarded list is returned. -/
def generateCompositeTail (buckets : List (String × List (Signal × ℚ)))
    (guard : List Signal → Except String (List Signal)) : List Signal :=
  let composite := sortByPriorityDesc (mergeBuckets buckets)
  match guard composite with
  | .ok g => g
  | .error _ => composite

/-! ## Signal validation rows (src/memory/database.py, signal_validation)

The `signal_validation` table: its only key is the AUTOINCREMENT `id`;
there is no uniqueness constraint over (signal_date, fund_code,
strategy_name).  `signal_type` is stored as its text value. -/

structure VRow where
  signalDate : Nat
  fundCode : String
  strategyName : String
  signalType : String
  confidence : ℚ
  regime : String
  navAtSignal : ℚ
  navAfter7d : Option ℚ := none
  navAfter30d : Option ℚ := none
  return7d : Option ℚ := none
  return30d : Option ℚ := none
  isCorrect7d : Option ℤ := none
  isCorrect30d : Option ℤ := none
  validatedAt : Option Nat := none
deriving DecidableEq, Repr

/-- `record_signal` (src/analysis/learner.py lines 26-43): a plain
`INSERT INTO signal_validation`, i.e. an append. -/
def recordSignal (table : List VRow) (row : VRow) : List VRow := table ++ [row]

/-- Number of rows carrying a given (signal_date, fund_code, strategy_name). -/
def countTriple (table : List VRow) (d : Nat) (f s : String) : Nat :=
  (table.filter (fun r => r.signalDate == d && r.fundCode == f && r.strategyName == s)).length

/-! ## Signal guard (src/analysis/signal_guard.py) -/

/-- Ordering used by `ORDER BY signal_date DESC`. -/
def dateGe (a b : VRow) : Prop := b.signalDate ≤ a.signalDate

instance : DecidableRel dateGe := fun a b => inferInstanceAs (Decidable (b.signalDate ≤ a.signalDate))

instance : IsTotal VRow dateGe := ⟨fun a b => Nat.le_total b.signalDate a.signalDate⟩

instance : IsTrans VRow dateGe := ⟨fun _ _ _ h1 h2 => le_trans h2 h1⟩

/-- The guard's query (lines 32-39): composite rows of the fund dated on
or after `cutoff` (= today − 90 days), newest first, limit 10.  Dates in
`signal_validation` need not be unique per fund, but `insertionSort` is a
faithful stable model of SQLite's sort. -/
def guardQuery (table : List VRow) (fund : String) (cutoff : Nat) : List VRow :=
  (List.insertionSort dateGe
    (table.filter (fun r =>
      r.fundCode == fund && r.strategyName == "composite" && decide (cutoff ≤ r.signalDate)))).take 10

/-- `direction = "buy" if signal_type in ("strong_buy", "buy") else "sell"`. -/
def directionOf (signalType : String) : String :=
  if signalType == "strong_buy" || signalType == "buy" then "buy" else "sell"

/-- The anti-pattern-1 scan (lines 45-56): length of the leading run of
records with `is_correct_30d == 0` sharing one direction. -/
def consecutiveWrongAux : List VRow → Option String → Nat
  | [], _ => 0
  | r :: rest, last =>
    let dir := directionOf r.signalType
    if r.isCorrect30d = some 0 ∧ (last = none ∨ last = some dir) then
      1 + consecutiveWrongAux rest (some dir)
    else 0

def consecutiveWrong (records : List VRow) : Nat := consecutiveWrongAux records none

/-- Count of adjacent direction flips (anti-pattern 2). -/
def countAdjacentDiff : List String → Nat
  | a :: b :: rest => (if a ≠ b then 1 else 0) + countAdjacentDiff (b :: rest)
  | _ => 0

/-- `SignalHealth` dataclass. -/
structure SignalHealth where
  fundCode : String
  penaltyFactor : ℚ := 1
  suppressed : Bool := false
  reason : String := ""
deriving DecidableEq, Repr

/-- `check_signal_health` (lines 26-97).  `cutoff` stands for the date
string `today − lookback_days`.  Reason strings are display-only; number
formatting is approximated by `toString`. -/
def checkSignalHealth (table : List VRow) (fund : String) (cutoff : Nat) : SignalHealth :=
  let records := guardQuery table fund cutoff
  if records.length < 3 then { fundCode := fund }
  else
    let cw := consecutiveWrong records
    if 3 ≤ cw then
      { fundCode := fund
        penaltyFactor := 3/10
        suppressed := decide (5 ≤ cw)
        reason := "连续 " ++ toString cw ++ " 次同方向错误" }
    else
      let validated := records.filter (fun r => r.isCorrect30d ≠ none)
      let directions := validated.map (fun r => directionOf r.signalType)
      let alternating := countAdjacentDiff directions
      let wrongCount := (validated.filter (fun r => r.isCorrect30d = some 0)).length
      if 4 ≤ validated.length ∧
          (directions.length : ℚ) * (7/10) ≤ (alternating : ℚ) ∧
          (validated.length : ℚ) * (6/10) ≤ (wrongCount : ℚ) then
        { fundCode := fund
          penaltyFactor := 1/2
          reason := "乒乓模式 (" ++ toString alternating ++ "/" ++ toString directions.length ++
            " 交替, " ++ toString wrongCount ++ "/" ++ toString validated.length ++ " 错误)" }
      else
        let highConf := validated.filter (fun r => decide ((6/10 : ℚ) ≤ r.confidence))
        let highCorrect := (highConf.filter (fun r => r.isCorrect30d = some 1)).length
        let highWinRate : ℚ := (highCorrect : ℚ) / (highConf.length : ℚ)
        if 3 ≤ highConf.length ∧ highWinRate < 2/5 then
          { fundCode := fund
            penaltyFactor := 3/5
            reason := "高置信度胜率仅 " ++ toString (round (highWinRate * 100)) ++ "% (" ++
              toString highCorrect ++ "/" ++ toString highConf.length ++ ")" }
        else { fundCode := fund }

/-- `apply_signal_guard` (lines 100-125): suppressed funds are removed,
penalised funds get confidence multiplied (and re-rounded) and an
explanatory line appended. -/
def applySignalGuard (table : List VRow) (cutoff : Nat) (signals : List Signal) : List Signal :=
  signals.filterMap (fun sig =>
    let health := checkSignalHealth table sig.fundCode cutoff
    if health.suppressed then none
    else if health.penaltyFactor < 1 then
      some { sig with
        confidence := round2 (sig.confidence * health.penaltyFactor)
        reason := sig.reason ++
          ["[signal_guard] 置信度降级 " ++ toString sig.confidence ++ " → " ++
            toString (round2 (sig.confidence * health.penaltyFactor)) ++ " (" ++ health.reason ++ ")"] }
    else some sig)

/-! ## Learning loop (src/analysis/learner.py) -/

/-- Per-fund NAV history rows (`fund_nav` keyed by (fund_code, nav_date),
so dates are unique within one fund's list). -/
structure NavRow where
  navDate : Nat
  nav : ℚ
deriving DecidableEq, Repr

/-- `ORDER BY nav_date DESC LIMIT 1` over a filtered set: the row with
the greatest date (dates are unique per fund). -/
def latestRowIn (navs : List NavRow) (p : NavRow → Bool) : Option NavRow :=
  (navs.filter p).foldl (fun acc r =>
    match acc with
    | none => some r
    | some a => if a.navDate < r.navDate then some r else some a) none

/-- `_get_nav_after` (lines 148-169): the latest NAV inside the window
[signal_date, signal_date + days]; if the window is empty, the latest NAV
strictly after signal_date. -/
def getNavAfter (navs : List NavRow) (signalDate days : Nat) : Option ℚ :=
  let target := signalDate + days
  match latestRowIn navs (fun r => decide (signalDate ≤ r.navDate) && decide (r.navDate ≤ target)) with
  | some r => some r.nav
  | none =>
    match latestRowIn navs (fun r => decide (signalDate < r.navDate)) with
    | some r => some r.nav
    | none => none

/-- The earliest row satisfying a predicate (minimal date). -/
def earliestRowIn (navs : List NavRow) (p : NavRow → Bool) : Option NavRow :=
  (navs.filter p).foldl (fun acc r =>
    match acc with
    | none => some r
    | some a => if r.navDate < a.navDate then some r else some a) none

/-- The NAV lookup as the SPEC words it (refinement comparison, not from
the source): the first NAV on or after `signal_date + days`, which is
also the nearest later NAV when none exists exactly at the target. -/
def specNavAfter (navs : List NavRow) (signalDate days : Nat) : Option ℚ :=
  match earliestRowIn navs (fun r => decide (signalDate + days ≤ r.navDate)) with
  | some r => some r.nav
  | none => none

/-- `_check_direction` (lines 172-191). -/
def checkDirection (signalType : String) (actualReturn : ℚ) (days : Nat) : ℤ :=
  let isB := signalType == "strong_buy" || signalType == "buy"
  let isS := signalType == "strong_sell" || signalType == "sell"
  let hurdle : ℚ := if days == 7 then 33/20 else 0
  if isB ∧ hurdle < actualReturn then 1
  else if isS ∧ actualReturn < 0 then 1
  else if isB ∧ actualReturn < hurdle then 0
  else if isS ∧ 0 < actualReturn then 0
  else 0

/-- The 7-day arm of `validate_pending_signals` (lines 85-120) acting on
one row: rows pending (`nav_after_7d` null, `signal_date ≤ today − 7`)
get the realized NAV, return, and direction verdict filled in. -/
def validateRow7 (navdb : String → List NavRow) (today : Nat) (r : VRow) : VRow :=
  if r.navAfter7d = none ∧ r.signalDate ≤ today - 7 then
    match getNavAfter (navdb r.fundCode) r.signalDate 7 with
    | none => r
    | some navNow =>
      if r.navAtSignal ≤ 0 then r
      else
        let ret := (navNow - r.navAtSignal) / r.navAtSignal * 100
        { r with navAfter7d := some navNow, return7d := some (round4 ret),
                 isCorrect7d := some (checkDirection r.signalType ret 7),
                 validatedAt := some today }
  else r

/-- The 30-day arm (lines 93-140) acting on one row. -/
def validateRow30 (navdb : String → List NavRow) (today : Nat) (r : VRow) : VRow :=
  if r.navAfter30d = none ∧ r.signalDate ≤ today - 30 then
    match getNavAfter (navdb r.fundCode) r.signalDate 30 with
    | none => r
    | some navNow =>
      if r.navAtSignal ≤ 0 then r
      else
        let ret := (navNow - r.navAtSignal) / r.navAtSignal * 100
        { r with navAfter30d := some navNow, return30d := some (round4 ret),
                 isCorrect30d := some (checkDirection r.signalType ret 30),
                 validatedAt := some today }
  else r

/-- `validate_pending_signals`: the 7-day pass followed by the 30-day
pass (each UPDATE touches only its own horizon's columns, so per-row
composition is faithful to the two SELECT/UPDATE loops). -/
def validatePendingSignals (navdb : String → List NavRow) (today : Nat)
    (rows : List VRow) : List VRow :=
  (rows.map (validateRow7 navdb today)).map (validateRow30 navdb today)

/-- The weight computation of `update_strategy_performance` (lines
248-254): clamp first, then halve for strongly negative average return. -/
def recommendedWeight (winRate avgReturn : ℚ) : ℚ :=
  let w := max (1/10) (min 1 (winRate * (3/2)))
  if avgReturn < -2 then w * (1/2) else w

/-- The value actually written to `strategy_performance` (line 267):
`round(recommended_weight, 4)`. -/
def recommendedWeightWritten (winRate avgReturn : ℚ) : ℚ :=
  round4 (recommendedWeight winRate avgReturn)

/-! ## Strategy registry (src/strategy/registry.py) -/

/-- `register_strategy`'s decorator body (lines 13-26) acting on the
module-level `_REGISTRY` dict, modelled as an insertion-ordered
association list of (name, default weight); the strategy class itself
carries no other data the claims read.  Every registered class inherits
`name` from `Strategy` (so `hasattr(cls, "name")` always holds); the
effective guard is `cls.name == "base"`.  Assigning an existing key
overwrites it in place. -/
def registerStrategy (registry : List (String × ℚ)) (name : String) (weight : ℚ) :
    Except String (List (String × ℚ)) :=
  if name == "base" then
    Except.error (name ++ " must define a unique `name`")
  else if (registry.map Prod.fst).contains name then
    Except.ok (registry.map (fun p => if p.1 == name then (p.1, weight) else p))
  else
    Except.ok (registry ++ [(name, weight)])

/-- Dict lookup `_REGISTRY[name]`. -/
def registryLookup (registry : List (String × ℚ)) (name : String) : Option ℚ :=
  (registry.find? (fun p => p.1 == name)).map Prod.snd

/-! ## LLM gateway (src/agent/errors.py, src/agent/llm.py) -/

/-- `ErrorCategory` enum from src/agent/errors.py. -/
inductive ErrorCategory
  | rateLimit
  | auth
  | billing
  | timeout
  | format
  | contextOverflow
  | network
  | unknown
deriving DecidableEq, Repr

/-- A raw (unclassified) Python exception as the classifier sees it.
`statusCode` is the result of `_extract_status_code` (an attribute read
plus a regex over the message, parametrised here as data). -/
structure PyExc where
  typeName : String
  message : String
  statusCode : Option Nat
deriving DecidableEq, Repr

/-- Substring containment over character lists (Python's `in`). -/
def charsHasSub (pat : List Char) : List Char → Bool
  | [] => pat.isEmpty
  | c :: rest => pat.isPrefixOf (c :: rest) || charsHasSub pat rest

def strHasSub (s pat : String) : Bool := charsHasSub pat.toList s.toList

/-- `_categorize` (src/agent/errors.py lines 75-120). -/
def categorize (exc : PyExc) : ErrorCategory :=
  let msg := exc.message.toLower
  if exc.statusCode = some 429 then .rateLimit
  else if exc.statusCode = some 401 ∨ exc.statusCode = some 403 then .auth
  else if exc.statusCode = some 402 then .billing
  else if strHasSub exc.typeName.toLower "timeout" || strHasSub msg "timeout" then .timeout
  else if strHasSub exc.typeName.toLower "json" || strHasSub msg "json" then .format
  else if exc.typeName == "AuthenticationError" then .auth
  else if exc.typeName == "RateLimitError" then .rateLimit
  else if strHasSub msg "rate" && strHasSub msg "limit" then .rateLimit
  else if strHasSub msg "quota" || strHasSub msg "resource_exhausted" then .rateLimit
  else if strHasSub msg "api key" || strHasSub msg "permission" || strHasSub msg "unauthorized" then .auth
  else if strHasSub msg "context" &&
      (strHasSub msg "length" || strHasSub msg "overflow" || strHasSub msg "too long") then .contextOverflow
  else if strHasSub msg "connection" || strHasSub msg "network" || strHasSub msg "dns" ||
      strHasSub msg "refused" || strHasSub msg "reset" then .network
  else
    match exc.statusCode with
    | some c => if 500 ≤ c ∧ c < 600 then .network else .unknown
    | none => .unknown

/-- Structured `LLMError` (message truncation to 500 chars is display-only
and not modelled). -/
structure LLMErr where
  category : ErrorCategory
  provider : String
  model : String
  message : String
deriving DecidableEq, Repr

/-- `LLMError.classify`. -/
def classifyExc (exc : PyExc) (provider model : String) : LLMErr :=
  { category := categorize exc, provider := provider, model := model, message := exc.message }

/-- `is_retryable`: everything except AUTH and BILLING. -/
def LLMErr.retryable (e : LLMErr) : Bool :=
  !(e.category = .auth ∨ e.category = .billing : Bool)

/-- One provider's model-tier configuration (`CONFIG["llm"][provider]`);
`none` models a missing key (Python `dict.get` returning `None`). -/
structure ProviderModels where
  analysisModel : Option String := none
  decisionModel : Option String := none
  criticalModel : Option String := none
deriving DecidableEq, Repr

/-- `_resolve_model_for_provider` (src/agent/llm.py lines 199-219). -/
def resolveModelForProvider (cfgModels : String → ProviderModels)
    (model targetProvider originalProvider : String) : String :=
  if targetProvider == originalProvider then model
  else
    let t := cfgModels targetProvider
    let o := cfgModels originalProvider
    if some model = o.analysisModel then t.analysisModel.getD model
    else if some model = o.criticalModel then t.criticalModel.getD model
    else if some model = o.decisionModel then t.decisionModel.getD model
    else t.decisionModel.getD model

/-- What the world does on one `_dispatch` call: success, a raised
pre-classified `LLMError` (re-raised as-is, line 269), or a raw
exception to classify. -/
inductive DispatchOutcome
  | ok (text : String) (tokens : Nat)
  | preclassified (e : LLMErr)
  | raw (exc : PyExc)
deriving DecidableEq, Repr

/-- Retry knobs from `CONFIG["llm"]`. -/
structure RetryCfg where
  maxRetries : Nat := 3
  backoffBase : ℚ := 2
  backoffMax : ℚ := 8
deriving DecidableEq, Repr

/-- How one provider's attempt loop ended. -/
inductive LoopStep
  | finished (r : Except LLMErr (String × Nat))
  | nextProvider (lastError : Option LLMErr)

/-- Trace of one provider's attempt loop: how it ended, the next global
dispatch index, the (provider, model) of every dispatch made, and the
backoff delays slept. -/
structure ProvRun where
  step : LoopStep
  nextIdx : Nat
  calls : List (String × String)
  delays : List ℚ

/-- The inner `for attempt in range(max_retries)` loop of `call_llm`
(lines 265-292).  `world k` is the outcome of the k-th dispatch overall. -/
def runProviderAux (world : Nat → DispatchOutcome) (cfg : RetryCfg) (provider model : String) :
    Nat → Nat → Nat → Option LLMErr → ProvRun
  | 0, _, k, last => ⟨.nextProvider last, k, [], []⟩
  | retriesLeft + 1, attempt, k, _last =>
    match world k with
    | .ok t tok => ⟨.finished (Except.ok (t, tok)), k + 1, [(provider, model)], []⟩
    | .preclassified e => ⟨.finished (Except.error e), k + 1, [(provider, model)], []⟩
    | .raw exc =>
      let err := classifyExc exc provider model
      if !err.retryable then ⟨.finished (Except.error err), k + 1, [(provider, model)], []⟩
      else if err.category = .rateLimit then ⟨.nextProvider (some err), k + 1, [(provider, model)], []⟩
      else
        let delay := min (cfg.backoffBase ^ attempt) cfg.backoffMax
        let rest := runProviderAux world cfg provider model retriesLeft (attempt + 1) (k + 1) (some err)
        ⟨rest.step, rest.nextIdx, (provider, model) :: rest.calls, delay :: rest.delays⟩

/-- Full result of `call_llm`: outcome plus the dispatch/backoff trace. -/
structure CallResult where
  result : Except LLMErr (String × Nat)
  calls : List (String × String)
  delays : List ℚ

/-- The outer provider loop of `call_llm` (lines 262-302), threading
`last_error` across providers and raising it (or the UNKNOWN default)
when the chain is exhausted. -/
def runChain (world : Nat → DispatchOutcome) (cfg : RetryCfg)
    (cfgModels : String → ProviderModels) (primary model : String) :
    List String → Nat → Option LLMErr → CallResult
  | [], _, last =>
    ⟨Except.error (last.getD ⟨.unknown, primary, model, "所有 LLM Provider 均不可用"⟩), [], []⟩
  | p :: rest, k, last =>
    let m := resolveModelForProvider cfgModels model p primary
    let run := runProviderAux world cfg p m cfg.maxRetries 0 k last
    match run.step with
    | .finished r => ⟨r, run.calls, run.delays⟩
    | .nextProvider last2 =>
      let cont := runChain world cfg cfgModels primary model rest run.nextIdx last2
      ⟨cont.result, run.calls ++ cont.calls, run.delays ++ cont.delays⟩

/-- `_get_fallback_provider` (lines 189-196): the other backend, present
iff its API key is set. -/
def fallbackProvider (primary : String) (anthropicKey geminiKey : Bool) : Option String :=
  let fb := if primary == "gemini" then "anthropic" else "gemini"
  if (if fb == "anthropic" then anthropicKey else geminiKey) then some fb else none

/-- `call_llm` (lines 222-302): build the provider chain, then run it.
(The prompt strings and `max_tokens` do not influence control flow and
are carried by `world`.) -/
def callLLM (world : Nat → DispatchOutcome) (cfg : RetryCfg)
    (cfgModels : String → ProviderModels) (enableFallback anthropicKey geminiKey : Bool)
    (primary model : String) : CallResult :=
  let chain := [primary] ++
    (if enableFallback then
      (match fallbackProvider primary anthropicKey geminiKey with
       | some fb => [fb]
       | none => [])
     else [])
  runChain world cfg cfgModels primary model chain 0 none

/-! ## Risk & sizing (src/risk/position_sizing.py, src/risk/correlation.py) -/

/-- `CONFIG["min_cash_reserve_pct"]` (src/config.py). -/
def minCashReservePct : ℚ := 1/10

/-- `CONFIG["max_single_position_pct"]` (src/config.py). -/
def maxSinglePositionPct : ℚ := 3/10

/-- The tier mapping at the end of `get_correlation_penalty`
(src/risk/correlation.py lines 162-167). -/
def corrPenaltyTier (avgCorr : ℚ) : ℚ :=
  if avgCorr > 4/5 then 3/10
  else if avgCorr > 1/2 then round2 (1 - avgCorr * (7/10))
  else 1

/-- `get_correlation_penalty` (lines 126-167).  The pandas correlation
matrix itself is outside the embedding; `avgCorr` is the mean 120-day
return correlation of the candidate against the holdings, `none` when
the matrix is empty / the candidate is missing / no pairs align (each of
which returns 1.0 in the source). -/
def getCorrelationPenalty (existingHoldings : List String) (avgCorr : Option ℚ) : ℚ :=
  if existingHoldings.isEmpty then 1
  else
    match avgCorr with
    | none => 1
    | some a => corrPenaltyTier a

/-- `regime_multipliers.get(regime, 0.50)`. -/
def regimeMultiplier (regime : String) : ℚ :=
  if regime == "bull_strong" then 9/10
  else if regime == "bull_weak" then 7/10
  else if regime == "ranging" then 1/2
  else if regime == "bear_weak" then 7/20
  else if regime == "bear_strong" then 1/5
  else 1/2

/-- `calculate_position_size` (src/risk/position_sizing.py lines 43-129).
The three `try/except: pass` enrichments are parametrised: `none` models
the call raising (step skipped).  `valuationMult` is
`v_signal.get("position_multiplier", 1.0)`; `maxEquity` is
`get_max_equity_amount(total, regime)`; `avgCorr` feeds
`get_correlation_penalty`. -/
def calculatePositionSize (totalCapital currentCash confidence : ℚ) (regime : String)
    (existingPositions : Nat) (fundCode : String) (existingHoldings : List String)
    (valuationMult : Option ℚ) (maxEquity : Option ℚ) (avgCorr : Option ℚ) : ℚ :=
  let minCash := totalCapital * minCashReservePct
  let available := max 0 (currentCash - minCash)
  if available ≤ 0 then 0
  else
    let basePct := regimeMultiplier regime
    let positionPct := basePct * confidence
    let maxSingle := totalCapital * maxSinglePositionPct
    let positionPct :=
      if 3 ≤ existingPositions then positionPct * (1/2)
      else if 2 ≤ existingPositions then positionPct * (7/10)
      else positionPct
    let positionPct :=
      match valuationMult with
      | some m => positionPct * m
      | none => positionPct
    let maxSingle :=
      match maxEquity with
      | some me => min maxSingle me
      | none => maxSingle
    let positionPct :=
      if fundCode ≠ "" ∧ ¬existingHoldings.isEmpty then
        positionPct * getCorrelationPenalty existingHoldings avgCorr
      else positionPct
    let amount := min (available * positionPct) maxSingle
    if amount < 100 then 0 else round2 amount

/-! ## Helper lemmas -/

theorem round2_mono {a b : ℚ} (h : a ≤ b) : round2 a ≤ round2 b := by
  unfold round2
  have h100 : (0:ℚ) < 100 := by norm_num
  have hr : round (a * 100) ≤ round (b * 100) := by
    rw [round_eq, round_eq]
    exact Int.floor_le_floor (by linarith)
  exact (div_le_div_iff_of_pos_right h100).mpr (by exact_mod_cast hr)

theorem round2_zero : round2 0 = 0 := by
  norm_num [round2, round_eq]

theorem round2_cap : round2 (19/20) = 19/20 := by
  norm_num [round2, round_eq]

theorem round2_nonneg {q : ℚ} (h : 0 ≤ q) : 0 ≤ round2 q := by
  have := round2_mono h
  rwa [round2_zero] at this

theorem score_foldl_nonneg (b : Signal × ℚ → Bool) (l : List (Signal × ℚ)) (init : ℚ)
    (h0 : 0 ≤ init) (h : ∀ p ∈ l, 0 ≤ p.1.confidence ∧ 0 ≤ p.2) :
    0 ≤ l.foldl (fun acc p => if b p then acc + p.1.confidence * p.2 else acc) init := by
  induction l generalizing init with
  | nil => simpa using h0
  | cons hd tl ih =>
    simp only [List.foldl_cons]
    apply ih
    · have hhd := h hd (by simp)
      split
      · nlinarith [hhd.1, hhd.2]
      · exact h0
    · intro p hp
      exact h p (List.mem_cons_of_mem _ hp)

theorem buyScore_nonneg (l : List (Signal × ℚ))
    (h : ∀ p ∈ l, 0 ≤ p.1.confidence ∧ 0 ≤ p.2) : 0 ≤ buyScore l :=
  score_foldl_nonneg _ l 0 le_rfl h

theorem sellScore_nonneg (l : List (Signal × ℚ))
    (h : ∀ p ∈ l, 0 ≤ p.1.confidence ∧ 0 ≤ p.2) : 0 ≤ sellScore l :=
  score_foldl_nonneg _ l 0 le_rfl h

theorem conflictCond_iff (l : List (Signal × ℚ)) :
    ((!(buyStrategies l).isEmpty && !(sellStrategies l).isEmpty) = true) ↔
      (buyStrategies l ≠ [] ∧ sellStrategies l ≠ []) := by
  simp [List.isEmpty_iff]

/-! ## C1 -/

/-- C1: in the composite merge, a fund bucket with
`buy_score + sell_score < 0.1` is dropped; otherwise with
`Net = buy_score − sell_score` the bucket yields STRONG_BUY when
`Net > 0.5`, BUY when `0.2 < Net ≤ 0.5`, STRONG_SELL when `Net < −0.5`,
SELL when `−0.5 ≤ Net < −0.2`, and is discarded (HOLD) when
`|Net| ≤ 0.2`; every emitted composite signal has confidence in
[0, 0.95]. -/
theorem C1_composite_thresholds_and_confidence_range (fund : String) (l : List (Signal × ℚ))
    (h : ∀ p ∈ l, 0 ≤ p.1.confidence ∧ 0 ≤ p.2) :
    (buyScore l + sellScore l < 1/10 → mergeBucket fund l = none) ∧
    (1/10 ≤ buyScore l + sellScore l →
      (1/2 < buyScore l - sellScore l →
        ∃ sig, mergeBucket fund l = some sig ∧ sig.signalType = .strongBuy) ∧
      (1/5 < buyScore l - sellScore l ∧ buyScore l - sellScore l ≤ 1/2 →
        ∃ sig, mergeBucket fund l = some sig ∧ sig.signalType = .buy) ∧
      (buyScore l - sellScore l < -(1/2) →
        ∃ sig, mergeBucket fund l = some sig ∧ sig.signalType = .strongSell) ∧
      (-(1/2) ≤ buyScore l - sellScore l ∧ buyScore l - sellScore l < -(1/5) →
        ∃ sig, mergeBucket fund l = some sig ∧ sig.signalType = .sell) ∧
      (|buyScore l - sellScore l| ≤ 1/5 → mergeBucket fund l = none)) ∧
    (∀ sig, mergeBucket fund l = some sig → 0 ≤ sig.confidence ∧ sig.confidence ≤ 19/20) := by
  have hb : 0 ≤ buyScore l := buyScore_nonneg l h
  have hs : 0 ≤ sellScore l := sellScore_nonneg l h
  have hmaxpos : (0:ℚ) < max (buyScore l + sellScore l) (1/100) :=
    lt_of_lt_of_le (by norm_num) (le_max_right _ _)
  refine ⟨?_, ?_, ?_⟩
  · intro hlt
    simp only [mergeBucket, if_pos hlt]
  · intro hge
    have hnot : ¬ (buyScore l + sellScore l < 1/10) := not_lt.mpr hge
    refine ⟨?_, ?_, ?_, ?_, ?_⟩
    · intro hc
      simp only [mergeBucket, if_neg hnot]
      rw [if_pos (show (1:ℚ)/5 < buyScore l - sellScore l by linarith),
        if_pos (show (1:ℚ)/2 < buyScore l - sellScore l from hc),
        if_neg (show ¬ (SignalType.strongBuy = SignalType.hold) by decide)]
      exact ⟨_, rfl, rfl⟩
    · intro hc
      simp only [mergeBucket, if_neg hnot]
      rw [if_pos hc.1, if_neg (show ¬ ((1:ℚ)/2 < buyScore l - sellScore l) by linarith [hc.2]),
        if_neg (show ¬ (SignalType.buy = SignalType.hold) by decide)]
      exact ⟨_, rfl, rfl⟩
    · intro hc
      simp only [mergeBucket, if_neg hnot]
      rw [if_neg (show ¬ ((1:ℚ)/5 < buyScore l - sellScore l) by linarith),
        if_pos (show buyScore l - sellScore l < -(1/5) by linarith),
        if_pos (show buyScore l - sellScore l < -(1/2) from hc),
        if_neg (show ¬ (SignalType.strongSell = SignalType.hold) by decide)]
      exact ⟨_, rfl, rfl⟩
    · intro hc
      simp only [mergeBucket, if_neg hnot]
      rw [if_neg (show ¬ ((1:ℚ)/5 < buyScore l - sellScore l) by linarith [hc.2]),
        if_pos (show buyScore l - sellScore l < -(1/5) from hc.2),
        if_neg (show ¬ (buyScore l - sellScore l < -(1/2)) by linarith [hc.1]),
        if_neg (show ¬ (SignalType.sell = SignalType.hold) by decide)]
      exact ⟨_, rfl, rfl⟩
    · intro hc
      have habs := abs_le.mp hc
      simp only [mergeBucket, if_neg hnot]
      rw [if_neg (show ¬ ((1:ℚ)/5 < buyScore l - sellScore l) by linarith [habs.2]),
        if_neg (show ¬ (buyScore l - sellScore l < -(1/5)) by linarith [habs.1]),
        if_pos rfl]
  · intro sig hsig
    simp only [mergeBucket] at hsig
    by_cases hlt : buyScore l + sellScore l < 1/10
    · rw [if_pos hlt] at hsig
      exact Option.noConfusion hsig
    · rw [if_neg hlt] at hsig
      have hconf0 : 0 ≤ |buyScore l - sellScore l| / max (buyScore l + sellScore l) (1/100) :=
        div_nonneg (abs_nonneg _) (le_of_lt hmaxpos)
      have hfracnn : 0 ≤ min (buyScore l) (sellScore l) / max (buyScore l + sellScore l) (1/100) :=
        div_nonneg (le_min hb hs) (le_of_lt hmaxpos)
      have hfracle : min (buyScore l) (sellScore l) / max (buyScore l + sellScore l) (1/100) ≤ 1 := by
        rw [div_le_one hmaxpos]
        calc min (buyScore l) (sellScore l) ≤ buyScore l := min_le_left _ _
          _ ≤ buyScore l + sellScore l := by linarith
          _ ≤ max (buyScore l + sellScore l) (1/100) := le_max_left _ _
      set conf0 := |buyScore l - sellScore l| / max (buyScore l + sellScore l) (1/100) with hconf0def
      set cfrac := min (buyScore l) (sellScore l) / max (buyScore l + sellScore l) (1/100) with hcfracdef
      have hconf1 : 0 ≤ (if (!(buyStrategies l).isEmpty && !(sellStrategies l).isEmpty) = true
          then conf0 * (1 - cfrac * (1/2)) else conf0) := by
        split
        · have hf : (0:ℚ) ≤ 1 - cfrac * (1/2) := by linarith
          exact mul_nonneg hconf0 hf
        · exact hconf0
      set conf1 := (if (!(buyStrategies l).isEmpty && !(sellStrategies l).isEmpty) = true
          then conf0 * (1 - cfrac * (1/2)) else conf0) with hconf1def
      have hmin0 : 0 ≤ min conf1 (19/20) := le_min hconf1 (by norm_num)
      have hmincap : min conf1 (19/20) ≤ 19/20 := min_le_right _ _
      have hfin : ∀ x : Signal, x.confidence = round2 (min conf1 (19/20)) →
          0 ≤ x.confidence ∧ x.confidence ≤ 19/20 := by
        intro x hx
        rw [hx]
        exact ⟨round2_nonneg hmin0, (round2_mono hmincap).trans (le_of_eq round2_cap)⟩
      split at hsig
      · split at hsig
        · rw [if_neg (show ¬ (SignalType.strongBuy = SignalType.hold) by decide),
            Option.some_inj] at hsig
          subst hsig
          exact hfin _ rfl
        · rw [if_neg (show ¬ (SignalType.buy = SignalType.hold) by decide),
            Option.some_inj] at hsig
          subst hsig
          exact hfin _ rfl
      · split at hsig
        · split at hsig
          · rw [if_neg (show ¬ (SignalType.strongSell = SignalType.hold) by decide),
              Option.some_inj] at hsig
            subst hsig
            exact hfin _ rfl
          · rw [if_neg (show ¬ (SignalType.sell = SignalType.hold) by decide),
              Option.some_inj] at hsig
            subst hsig
            exact hfin _ rfl
        · rw [if_pos rfl] at hsig
          exact Option.noConfusion hsig

/-- Witness for C1 at a concrete bucket: one BUY(conf 0.8, weight 0.5)
gives Net = 0.4 ∈ (0.2, 0.5], hence a composite BUY. -/
theorem C1_composite_thresholds_and_confidence_range_witness :
    ∃ sig, mergeBucket "000300"
      [({ fundCode := "000300", signalType := .buy, confidence := 4/5, reason := ["r"],
          strategyName := "trend_following", priority := 0 }, 1/2)] = some sig ∧
      sig.signalType = .buy :=
  ((C1_composite_thresholds_and_confidence_range "000300"
      [({ fundCode := "000300", signalType := .buy, confidence := 4/5, reason := ["r"],
          strategyName := "trend_following", priority := 0 }, 1/2)]
      (by norm_num)).2.1
    (by norm_num [buyScore, sellScore, SignalType.isBuyT, SignalType.isSellT])).2.1
    (by norm_num [buyScore, sellScore, SignalType.isBuyT, SignalType.isSellT])

/-! ## C2 -/

theorem conflict_if_eq {α : Sort _} (l : List (Signal × ℚ)) (A B : α) :
    (if (!(buyStrategies l).isEmpty && !(sellStrategies l).isEmpty) = true then A else B) =
    (if buyStrategies l ≠ [] ∧ sellStrategies l ≠ [] then A else B) := by
  by_cases hcf : buyStrategies l ≠ [] ∧ sellStrategies l ≠ []
  · rw [if_pos ((conflictCond_iff l).mpr hcf), if_pos hcf]
  · rw [if_neg (fun hb => hcf ((conflictCond_iff l).mp hb)), if_neg hcf]

/-- C2 counterexample: the claim says that with A's weight raised to 0.6
(A: BUY conf 0.8, B: SELL conf 0.8 weight 0.5) compose() emits a
composite BUY with confidence ≈ 0.09.  In the code Net = 0.48 − 0.40 =
0.08 ≤ 0.2, so the bucket resolves to HOLD and is discarded: no
composite signal is emitted at all. -/
theorem C2_conflict_example_counterexample :
    mergeBucket "F"
      [({ fundCode := "F", signalType := .buy, confidence := 4/5, reason := ["ra"],
          strategyName := "A", priority := 0 }, 3/5),
       ({ fundCode := "F", signalType := .sell, confidence := 4/5, reason := ["rb"],
          strategyName := "B", priority := 0 }, 1/2)] = none := by
  norm_num [mergeBucket, buyScore, sellScore, buyStrategies, sellStrategies,
    SignalType.isBuyT, SignalType.isSellT]

/-- C2 (amended): every emitted composite signal has confidence
`round2 (min (|Net|/Total · dampening) 0.95)` where the dampening factor
`(1 − 0.5·min(buy,sell)/Total)` applies exactly when both buy-side and
sell-side strategies contributed, in which case a "[conflict]" line is
appended; the equal-weight scenario (A BUY 0.8 w 0.5 vs B SELL 0.8 w
0.5) is discarded as HOLD, and so is the scenario with A's weight raised
to 0.6 (Net = 0.08 ≤ 0.2) — no composite BUY is emitted there. -/
theorem C2_conflict_dampening_amended :
    (∀ (fund : String) (l : List (Signal × ℚ)) (sig : Signal),
      mergeBucket fund l = some sig →
        1/10 ≤ buyScore l + sellScore l ∧
        sig.confidence = round2 (min
          (if buyStrategies l ≠ [] ∧ sellStrategies l ≠ [] then
            |buyScore l - sellScore l| / (buyScore l + sellScore l) *
              (1 - min (buyScore l) (sellScore l) / (buyScore l + sellScore l) * (1/2))
          else |buyScore l - sellScore l| / (buyScore l + sellScore l)) (19/20)) ∧
        (buyStrategies l ≠ [] ∧ sellStrategies l ≠ [] → conflictAnno l ∈ sig.reason)) ∧
    mergeBucket "F"
      [({ fundCode := "F", signalType := .buy, confidence := 4/5, reason := ["ra"],
          strategyName := "A", priority := 0 }, 1/2),
       ({ fundCode := "F", signalType := .sell, confidence := 4/5, reason := ["rb"],
          strategyName := "B", priority := 0 }, 1/2)] = none ∧
    mergeBucket "F"
      [({ fundCode := "F", signalType := .buy, confidence := 4/5, reason := ["ra"],
          strategyName := "A", priority := 0 }, 3/5),
       ({ fundCode := "F", signalType := .sell, confidence := 4/5, reason := ["rb"],
          strategyName := "B", priority := 0 }, 1/2)] = none := by
  refine ⟨?_, ?_, ?_⟩
  · intro fund l sig hsig
    simp only [mergeBucket] at hsig
    by_cases hlt : buyScore l + sellScore l < 1/10
    · rw [if_pos hlt] at hsig
      exact Option.noConfusion hsig
    · rw [if_neg hlt] at hsig
      have hge : 1/10 ≤ buyScore l + sellScore l := not_lt.mp hlt
      have hmax : max (buyScore l + sellScore l) (1/100) = buyScore l + sellScore l :=
        max_eq_left (by linarith)
      rw [hmax] at hsig
      refine ⟨hge, ?_⟩
      have hgoal : ∀ x : Signal,
          x.confidence = round2 (min
            (if (!(buyStrategies l).isEmpty && !(sellStrategies l).isEmpty) = true then
              |buyScore l - sellScore l| / (buyScore l + sellScore l) *
                (1 - min (buyScore l) (sellScore l) / (buyScore l + sellScore l) * (1/2))
            else |buyScore l - sellScore l| / (buyScore l + sellScore l)) (19/20)) →
          x.reason = bucketReasons l ++
            (if (!(buyStrategies l).isEmpty && !(sellStrategies l).isEmpty) = true
             then [conflictAnno l] else []) →
          (x.confidence = round2 (min
            (if buyStrategies l ≠ [] ∧ sellStrategies l ≠ [] then
              |buyScore l - sellScore l| / (buyScore l + sellScore l) *
                (1 - min (buyScore l) (sellScore l) / (buyScore l + sellScore l) * (1/2))
            else |buyScore l - sellScore l| / (buyScore l + sellScore l)) (19/20)) ∧
           (buyStrategies l ≠ [] ∧ sellStrategies l ≠ [] → conflictAnno l ∈ x.reason)) := by
        intro x hc hr
        constructor
        · rw [hc, conflict_if_eq]
        · intro hcf
          rw [hr, conflict_if_eq l, if_pos hcf]
          simp
      split at hsig
      · split at hsig
        · rw [if_neg (show ¬ (SignalType.strongBuy = SignalType.hold) by decide),
            Option.some_inj] at hsig
          subst hsig
          exact hgoal _ rfl rfl
        · rw [if_neg (show ¬ (SignalType.buy = SignalType.hold) by decide),
            Option.some_inj] at hsig
          subst hsig
          exact hgoal _ rfl rfl
      · split at hsig
        · split at hsig
          · rw [if_neg (show ¬ (SignalType.strongSell = SignalType.hold) by decide),
              Option.some_inj] at hsig
            subst hsig
            exact hgoal _ rfl rfl
          · rw [if_neg (show ¬ (SignalType.sell = SignalType.hold) by decide),
              Option.some_inj] at hsig
            subst hsig
            exact hgoal _ rfl rfl
        · rw [if_pos rfl] at hsig
          exact Option.noConfusion hsig
  · norm_num [mergeBucket, buyScore, sellScore, buyStrategies, sellStrategies,
      SignalType.isBuyT, SignalType.isSellT]
  · norm_num [mergeBucket, buyScore, sellScore, buyStrategies, sellStrategies,
      SignalType.isBuyT, SignalType.isSellT]

/-- Witness for C2 at a concrete conflicted bucket (A BUY 0.8 w 0.6 vs
B SELL 0.2 w 0.5: Net = 0.38, Total = 0.58, dampened confidence rounds
to 0.6 and the "[conflict]" line is present). -/
theorem C2_conflict_dampening_witness :
    1/10 ≤ buyScore
      [({ fundCode := "F", signalType := .buy, confidence := 4/5, reason := ["ra"],
          strategyName := "A", priority := 0 }, 3/5),
       ({ fundCode := "F", signalType := .sell, confidence := 1/5, reason := ["rb"],
          strategyName := "B", priority := 0 }, 1/2)] + sellScore
      [({ fundCode := "F", signalType := .buy, confidence := 4/5, reason := ["ra"],
          strategyName := "A", priority := 0 }, 3/5),
       ({ fundCode := "F", signalType := .sell, confidence := 1/5, reason := ["rb"],
          strategyName := "B", priority := 0 }, 1/2)] ∧
    (Signal.mk "F" .buy (3/5)
        ["[A] ra", "[B] rb", "[conflict] 策略冲突 (买:A vs 卖:B)"] "composite" 38).confidence =
      round2 (min
        (if buyStrategies
            [({ fundCode := "F", signalType := .buy, confidence := 4/5, reason := ["ra"],
                strategyName := "A", priority := 0 }, 3/5),
             ({ fundCode := "F", signalType := .sell, confidence := 1/5, reason := ["rb"],
                strategyName := "B", priority := 0 }, 1/2)] ≠ [] ∧ sellStrategies
            [({ fundCode := "F", signalType := .buy, confidence := 4/5, reason := ["ra"],
                strategyName := "A", priority := 0 }, 3/5),
             ({ fundCode := "F", signalType := .sell, confidence := 1/5, reason := ["rb"],
                strategyName := "B", priority := 0 }, 1/2)] ≠ [] then
          |buyScore
            [({ fundCode := "F", signalType := .buy, confidence := 4/5, reason := ["ra"],
                strategyName := "A", priority := 0 }, 3/5),
             ({ fundCode := "F", signalType := .sell, confidence := 1/5, reason := ["rb"],
                strategyName := "B", priority := 0 }, 1/2)] - sellScore
            [({ fundCode := "F", signalType := .buy, confidence := 4/5, reason := ["ra"],
                strategyName := "A", priority := 0 }, 3/5),
             ({ fundCode := "F", signalType := .sell, confidence := 1/5, reason := ["rb"],
                strategyName := "B", priority := 0 }, 1/2)]| / (buyScore
            [({ fundCode := "F", signalType := .buy, confidence := 4/5, reason := ["ra"],
                strategyName := "A", priority := 0 }, 3/5),
             ({ fundCode := "F", signalType := .sell, confidence := 1/5, reason := ["rb"],
                strategyName := "B", priority := 0 }, 1/2)] + sellScore
            [({ fundCode := "F", signalType := .buy, confidence := 4/5, reason := ["ra"],
                strategyName := "A", priority := 0 }, 3/5),
             ({ fundCode := "F", signalType := .sell, confidence := 1/5, reason := ["rb"],
                strategyName := "B", priority := 0 }, 1/2)]) *
            (1 - min (buyScore
              [({ fundCode := "F", signalType := .buy, confidence := 4/5, reason := ["ra"],
                  strategyName := "A", priority := 0 }, 3/5),
               ({ fundCode := "F", signalType := .sell, confidence := 1/5, reason := ["rb"],
                  strategyName := "B", priority := 0 }, 1/2)]) (sellScore
              [({ fundCode := "F", signalType := .buy, confidence := 4/5, reason := ["ra"],
                  strategyName := "A", priority := 0 }, 3/5),
               ({ fundCode := "F", signalType := .sell, confidence := 1/5, reason := ["rb"],
                  strategyName := "B", priority := 0 }, 1/2)]) / (buyScore
              [({ fundCode := "F", signalType := .buy, confidence := 4/5, reason := ["ra"],
                  strategyName := "A", priority := 0 }, 3/5),
               ({ fundCode := "F", signalType := .sell, confidence := 1/5, reason := ["rb"],
                  strategyName := "B", priority := 0 }, 1/2)] + sellScore
              [({ fundCode := "F", signalType := .buy, confidence := 4/5, reason := ["ra"],
                  strategyName := "A", priority := 0 }, 3/5),
               ({ fundCode := "F", signalType := .sell, confidence := 1/5, reason := ["rb"],
                  strategyName := "B", priority := 0 }, 1/2)]) * (1/2))
        else
          |buyScore
            [({ fundCode := "F", signalType := .buy, confidence := 4/5, reason := ["ra"],
                strategyName := "A", priority := 0 }, 3/5),
             ({ fundCode := "F", signalType := .sell, confidence := 1/5, reason := ["rb"],
                strategyName := "B", priority := 0 }, 1/2)] - sellScore
            [({ fundCode := "F", signalType := .buy, confidence := 4/5, reason := ["ra"],
                strategyName := "A", priority := 0 }, 3/5),
             ({ fundCode := "F", signalType := .sell, confidence := 1/5, reason := ["rb"],
                strategyName := "B", priority := 0 }, 1/2)]| / (buyScore
            [({ fundCode := "F", signalType := .buy, confidence := 4/5, reason := ["ra"],
                strategyName := "A", priority := 0 }, 3/5),
             ({ fundCode := "F", signalType := .sell, confidence := 1/5, reason := ["rb"],
                strategyName := "B", priority := 0 }, 1/2)] + sellScore
            [({ fundCode := "F", signalType := .buy, confidence := 4/5, reason := ["ra"],
                strategyName := "A", priority := 0 }, 3/5),
             ({ fundCode := "F", signalType := .sell, confidence := 1/5, reason := ["rb"],
                strategyName := "B", priority := 0 }, 1/2)])) (19/20)) ∧
    (buyStrategies
        [({ fundCode := "F", signalType := .buy, confidence := 4/5, reason := ["ra"],
            strategyName := "A", priority := 0 }, 3/5),
         ({ fundCode := "F", signalType := .sell, confidence := 1/5, reason := ["rb"],
            strategyName := "B", priority := 0 }, 1/2)] ≠ [] ∧ sellStrategies
        [({ fundCode := "F", signalType := .buy, confidence := 4/5, reason := ["ra"],
            strategyName := "A", priority := 0 }, 3/5),
         ({ fundCode := "F", signalType := .sell, confidence := 1/5, reason := ["rb"],
            strategyName := "B", priority := 0 }, 1/2)] ≠ [] →
      conflictAnno
        [({ fundCode := "F", signalType := .buy, confidence := 4/5, reason := ["ra"],
            strategyName := "A", priority := 0 }, 3/5),
         ({ fundCode := "F", signalType := .sell, confidence := 1/5, reason := ["rb"],
            strategyName := "B", priority := 0 }, 1/2)] ∈
        (Signal.mk "F" .buy (3/5)
          ["[A] ra", "[B] rb", "[conflict] 策略冲突 (买:A vs 卖:B)"] "composite" 38).reason) :=
  C2_conflict_dampening_amended.1 "F"
    [({ fundCode := "F", signalType := .buy, confidence := 4/5, reason := ["ra"],
        strategyName := "A", priority := 0 }, 3/5),
     ({ fundCode := "F", signalType := .sell, confidence := 1/5, reason := ["rb"],
        strategyName := "B", priority := 0 }, 1/2)]
    (Signal.mk "F" .buy (3/5)
      ["[A] ra", "[B] rb", "[conflict] 策略冲突 (买:A vs 卖:B)"] "composite" 38)
    (by
      simp only [mergeBucket, buyScore, sellScore, buyStrategies, sellStrategies, bucketReasons,
        SignalType.isBuyT, SignalType.isSellT, List.foldl_cons, List.foldl_nil,
        List.filterMap_cons, List.filterMap_nil]
      norm_num [round2, round_eq, pyInt, abs_of_nonneg, String.intercalate, conflictAnno,
        buyStrategies, sellStrategies, SignalType.isBuyT, SignalType.isSellT,
        List.filterMap_cons, List.filterMap_nil]
      exact ⟨by decide, by decide, by decide, by decide⟩)

/-! ## C10 -/

/-- C10: if applying the signal guard raises, `generate_composite_signals`
catches the exception and returns the full composite list unguarded —
a permutation of the merged bucket results, sorted by priority
descending, with no penalty or suppression applied. -/
theorem C10_guard_error_returns_unguarded (buckets : List (String × List (Signal × ℚ)))
    (guard : List Signal → Except String (List Signal)) (e : String)
    (herr : guard (sortByPriorityDesc (mergeBuckets buckets)) = Except.error e) :
    generateCompositeTail buckets guard = sortByPriorityDesc (mergeBuckets buckets) ∧
    (generateCompositeTail buckets guard).Perm (mergeBuckets buckets) ∧
    List.Sorted prioGe (generateCompositeTail buckets guard) := by
  have heq : generateCompositeTail buckets guard = sortByPriorityDesc (mergeBuckets buckets) := by
    simp only [generateCompositeTail, herr]
  refine ⟨heq, ?_, ?_⟩
  · rw [heq]
    exact List.perm_insertionSort prioGe _
  · rw [heq]
    exact List.sorted_insertionSort prioGe _

/-- Witness for C10: a guard that always raises leaves the concrete
one-bucket composite list intact. -/
theorem C10_guard_error_returns_unguarded_witness :
    generateCompositeTail
      [("000300",
        [({ fundCode := "000300", signalType := .buy, confidence := 4/5, reason := ["r"],
            strategyName := "trend_following", priority := 0 }, 1/2)])]
      (fun _ => Except.error "db locked") =
      sortByPriorityDesc (mergeBuckets
        [("000300",
          [({ fundCode := "000300", signalType := .buy, confidence := 4/5, reason := ["r"],
              strategyName := "trend_following", priority := 0 }, 1/2)])]) ∧
    (generateCompositeTail
      [("000300",
        [({ fundCode := "000300", signalType := .buy, confidence := 4/5, reason := ["r"],
            strategyName := "trend_following", priority := 0 }, 1/2)])]
      (fun _ => Except.error "db locked")).Perm (mergeBuckets
        [("000300",
          [({ fundCode := "000300", signalType := .buy, confidence := 4/5, reason := ["r"],
              strategyName := "trend_following", priority := 0 }, 1/2)])]) ∧
    List.Sorted prioGe (generateCompositeTail
      [("000300",
        [({ fundCode := "000300", signalType := .buy, confidence := 4/5, reason := ["r"],
            strategyName := "trend_following", priority := 0 }, 1/2)])]
      (fun _ => Except.error "db locked")) :=
  C10_guard_error_returns_unguarded
    [("000300",
      [({ fundCode := "000300", signalType := .buy, confidence := 4/5, reason := ["r"],
          strategyName := "trend_following", priority := 0 }, 1/2)])]
    (fun _ => Except.error "db locked") "db locked" rfl

/-! ## C3 -/

theorem consecutiveWrongAux_le (l : List VRow) (last : Option String) :
    consecutiveWrongAux l last ≤ l.length := by
  induction l generalizing last with
  | nil => simp [consecutiveWrongAux]
  | cons r rest ih =>
    simp only [consecutiveWrongAux, List.length_cons]
    split
    · have h := ih (some (directionOf r.signalType))
      omega
    · exact Nat.zero_le _

theorem checkSignalHealth_streak (table : List VRow) (fund : String) (cutoff : Nat)
    (h3 : 3 ≤ consecutiveWrong (guardQuery table fund cutoff)) :
    checkSignalHealth table fund cutoff =
      { fundCode := fund
        penaltyFactor := 3/10
        suppressed := decide (5 ≤ consecutiveWrong (guardQuery table fund cutoff))
        reason := "连续 " ++ toString (consecutiveWrong (guardQuery table fund cutoff)) ++
          " 次同方向错误" } := by
  have hlen : ¬ ((guardQuery table fund cutoff).length < 3) :=
    not_lt.mpr (le_trans h3 (consecutiveWrongAux_le _ _))
  simp only [checkSignalHealth, if_neg hlen, if_pos h3]

/-- C3: when a fund's queried validation history (last 10 composite
records within the lookback window) starts with a same-direction wrong
streak of length ≥ 3 but < 5, the guard keeps the fund's signal with its
confidence multiplied by 0.3 (re-rounded to two decimals as everywhere);
with a streak of length ≥ 5 every signal of that fund is removed — in
particular a new composite BUY(conf 0.7) for a fund with 5 consecutive
wrong BUY records (`is_correct_30d = 0`) yields an empty guarded list. -/
theorem C3_guard_streak_penalty_and_suppression :
    (∀ (table : List VRow) (cutoff : Nat) (signals : List Signal) (sig : Signal),
      sig ∈ signals →
      3 ≤ consecutiveWrong (guardQuery table sig.fundCode cutoff) →
      consecutiveWrong (guardQuery table sig.fundCode cutoff) < 5 →
      ∃ sig', sig' ∈ applySignalGuard table cutoff signals ∧
        sig'.fundCode = sig.fundCode ∧
        sig'.confidence = round2 (sig.confidence * (3/10))) ∧
    (∀ (table : List VRow) (cutoff : Nat) (fund : String) (signals : List Signal),
      5 ≤ consecutiveWrong (guardQuery table fund cutoff) →
      ∀ sig' ∈ applySignalGuard table cutoff signals, sig'.fundCode ≠ fund) ∧
    applySignalGuard
      [{ signalDate := 10, fundCode := "F", strategyName := "composite", signalType := "buy",
         confidence := 7/10, regime := "ranging", navAtSignal := 1, isCorrect30d := some 0 },
       { signalDate := 20, fundCode := "F", strategyName := "composite", signalType := "buy",
         confidence := 7/10, regime := "ranging", navAtSignal := 1, isCorrect30d := some 0 },
       { signalDate := 30, fundCode := "F", strategyName := "composite", signalType := "buy",
         confidence := 7/10, regime := "ranging", navAtSignal := 1, isCorrect30d := some 0 },
       { signalDate := 40, fundCode := "F", strategyName := "composite", signalType := "buy",
         confidence := 7/10, regime := "ranging", navAtSignal := 1, isCorrect30d := some 0 },
       { signalDate := 50, fundCode := "F", strategyName := "composite", signalType := "buy",
         confidence := 7/10, regime := "ranging", navAtSignal := 1, isCorrect30d := some 0 }]
      0 [{ fundCode := "F", signalType := .buy, confidence := 7/10, reason := ["q"],
           strategyName := "composite", priority := 30 }] = [] := by
  refine ⟨?_, ?_, by decide⟩
  · intro table cutoff signals sig hmem h3 h5
    have hh := checkSignalHealth_streak table sig.fundCode cutoff h3
    have h5' : ¬ (5 ≤ consecutiveWrong (guardQuery table sig.fundCode cutoff)) := not_le.mpr h5
    refine ⟨{ sig with
        confidence := round2 (sig.confidence * (3/10)),
        reason := sig.reason ++
          ["[signal_guard] 置信度降级 " ++ toString sig.confidence ++ " → " ++
            toString (round2 (sig.confidence * (3/10))) ++ " (" ++
            ("连续 " ++ toString (consecutiveWrong (guardQuery table sig.fundCode cutoff)) ++
              " 次同方向错误") ++ ")"] }, ?_, rfl, rfl⟩
    unfold applySignalGuard
    apply List.mem_filterMap.mpr
    refine ⟨sig, hmem, ?_⟩
    simp [hh, h5', show (3:ℚ)/10 < 1 by norm_num]
  · intro table cutoff fund signals h5 sig' hmem'
    unfold applySignalGuard at hmem'
    obtain ⟨sig, hmem, hf⟩ := List.mem_filterMap.mp hmem'
    by_cases hfund : sig.fundCode = fund
    · exfalso
      have hh := checkSignalHealth_streak table fund cutoff (le_trans (by norm_num) h5)
      rw [hfund] at hf
      simp only [hh, decide_eq_true_eq, if_pos h5] at hf
      exact Option.noConfusion hf
    · intro hcontra
      apply hfund
      simp only at hf
      split at hf
      · exact Option.noConfusion hf
      · split at hf
        · rw [Option.some_inj] at hf
          subst hf
          exact hcontra
        · rw [Option.some_inj] at hf
          subst hf
          exact hcontra

/-- Witness for C3: a fund with exactly 3 consecutive wrong BUY records
gets its new signal's confidence multiplied by 0.3 (0.7 → 0.21). -/
theorem C3_guard_streak_penalty_and_suppression_witness :
    ∃ sig', sig' ∈ applySignalGuard
      [{ signalDate := 10, fundCode := "F", strategyName := "composite", signalType := "buy",
         confidence := 7/10, regime := "ranging", navAtSignal := 1, isCorrect30d := some 0 },
       { signalDate := 20, fundCode := "F", strategyName := "composite", signalType := "buy",
         confidence := 7/10, regime := "ranging", navAtSignal := 1, isCorrect30d := some 0 },
       { signalDate := 30, fundCode := "F", strategyName := "composite", signalType := "buy",
         confidence := 7/10, regime := "ranging", navAtSignal := 1, isCorrect30d := some 0 }]
      0 [{ fundCode := "F", signalType := .buy, confidence := 7/10, reason := ["q"],
           strategyName := "composite", priority := 30 }] ∧
      sig'.fundCode = (Signal.mk "F" .buy (7/10) ["q"] "composite" 30).fundCode ∧
      sig'.confidence =
        round2 ((Signal.mk "F" .buy (7/10) ["q"] "composite" 30).confidence * (3/10)) :=
  C3_guard_streak_penalty_and_suppression.1
    [{ signalDate := 10, fundCode := "F", strategyName := "composite", signalType := "buy",
       confidence := 7/10, regime := "ranging", navAtSignal := 1, isCorrect30d := some 0 },
     { signalDate := 20, fundCode := "F", strategyName := "composite", signalType := "buy",
       confidence := 7/10, regime := "ranging", navAtSignal := 1, isCorrect30d := some 0 },
     { signalDate := 30, fundCode := "F", strategyName := "composite", signalType := "buy",
       confidence := 7/10, regime := "ranging", navAtSignal := 1, isCorrect30d := some 0 }]
    0 [Signal.mk "F" .buy (7/10) ["q"] "composite" 30]
    (Signal.mk "F" .buy (7/10) ["q"] "composite" 30)
    (by simp) (by decide) (by decide)

/-! ## C4 -/

/-- C4 counterexample: `record_signal` is a plain INSERT into a table
whose only key is the AUTOINCREMENT id, so registering the same
(signal_date, fund_code, strategy_name) triple twice yields TWO rows,
not one. -/
theorem C4_duplicate_registration_counterexample :
    countTriple (recordSignal (recordSignal []
        { signalDate := 100, fundCode := "F", strategyName := "composite", signalType := "buy",
          confidence := 7/10, regime := "ranging", navAtSignal := 1 })
        { signalDate := 100, fundCode := "F", strategyName := "composite", signalType := "buy",
          confidence := 7/10, regime := "ranging", navAtSignal := 1 })
      100 "F" "composite" = 2 := by decide

/-- C4 (amended): each registration appends exactly one row; after any
sequence of registrations a triple appears once per registration that
carried it — the log has no uniqueness constraint. -/
theorem C4_registration_appends_amended :
    (∀ (table : List VRow) (row : VRow), recordSignal table row = table ++ [row]) ∧
    (∀ (table : List VRow) (row : VRow) (d : Nat) (f s : String),
      countTriple (recordSignal table row) d f s =
        countTriple table d f s +
          (if row.signalDate == d && row.fundCode == f && row.strategyName == s then 1 else 0)) := by
  constructor
  · intro table row
    rfl
  · intro table row d f s
    simp only [countTriple, recordSignal, List.filter_append, List.length_append]
    congr 1
    split
    · simp [List.filter_cons, *]
    · simp [List.filter_cons, *]

/-! ## C5 -/

/-- C5 counterexample: the ×0.5 negative-return damping is applied AFTER
the clamp to [0.1, 1.0], so win_rate = 0 with avg_return = −3 writes a
recommended_weight of 0.05, outside [0.1, 1.0]. -/
theorem C5_weight_counterexample :
    recommendedWeightWritten 0 (-3) = 1/20 ∧ ¬ (1/10 ≤ recommendedWeightWritten 0 (-3)) := by
  constructor <;>
    norm_num [recommendedWeightWritten, recommendedWeight, round4, round_eq]

theorem round4_mono {a b : ℚ} (h : a ≤ b) : round4 a ≤ round4 b := by
  unfold round4
  have h10000 : (0:ℚ) < 10000 := by norm_num
  have hr : round (a * 10000) ≤ round (b * 10000) := by
    rw [round_eq, round_eq]
    exact Int.floor_le_floor (by linarith)
  exact (div_le_div_iff_of_pos_right h10000).mpr (by exact_mod_cast hr)

/-- C5 (amended): the weight written to `strategy_performance` —
clamp(win_rate·1.5, [0.1, 1.0]) multiplied by 0.5 when avg_return < −2 —
lies in [0.05, 1.0]; it lies in [0.1, 1.0] whenever avg_return ≥ −2. -/
theorem C5_weight_range_amended (winRate avgReturn : ℚ) :
    1/20 ≤ recommendedWeightWritten winRate avgReturn ∧
    recommendedWeightWritten winRate avgReturn ≤ 1 ∧
    (-2 ≤ avgReturn → 1/10 ≤ recommendedWeightWritten winRate avgReturn) := by
  have hw1 : 1/10 ≤ max (1/10 : ℚ) (min 1 (winRate * (3/2))) := le_max_left _ _
  have hw2 : max (1/10 : ℚ) (min 1 (winRate * (3/2))) ≤ 1 :=
    max_le (by norm_num) (min_le_left _ _)
  have hlo : 1/20 ≤ recommendedWeight winRate avgReturn := by
    unfold recommendedWeight
    split
    · linarith
    · linarith
  have hhi : recommendedWeight winRate avgReturn ≤ 1 := by
    unfold recommendedWeight
    split
    · linarith
    · linarith
  refine ⟨?_, ?_, ?_⟩
  · have hm := round4_mono hlo
    calc (1:ℚ)/20 = round4 (1/20) := by norm_num [round4, round_eq]
      _ ≤ round4 (recommendedWeight winRate avgReturn) := hm
  · have hm := round4_mono hhi
    calc recommendedWeightWritten winRate avgReturn ≤ round4 1 := hm
      _ = 1 := by norm_num [round4, round_eq]
  · intro hang
    have hge : 1/10 ≤ recommendedWeight winRate avgReturn := by
      unfold recommendedWeight
      rw [if_neg (by linarith : ¬ (avgReturn < -2))]
      exact hw1
    have hm := round4_mono hge
    calc (1:ℚ)/10 = round4 (1/10) := by norm_num [round4, round_eq]
      _ ≤ round4 (recommendedWeight winRate avgReturn) := hm

/-- Witness for C5 at win_rate = 0.5, avg_return = 0: weight 0.75 lies in
both ranges. -/
theorem C5_weight_range_amended_witness :
    1/20 ≤ recommendedWeightWritten (1/2) 0 ∧
    (-2:ℚ) ≤ 0 ∧ 1/10 ≤ recommendedWeightWritten (1/2) 0 :=
  ⟨(C5_weight_range_amended (1/2) 0).1, by norm_num,
    (C5_weight_range_amended (1/2) 0).2.2 (by norm_num)⟩

/-! ## C9 -/

theorem finalGate (amount : ℚ) :
    (if amount < 100 then (0:ℚ) else round2 amount) = 0 ∨
    100 ≤ (if amount < 100 then (0:ℚ) else round2 amount) := by
  split
  · exact Or.inl rfl
  · right
    rename_i hge
    calc (100:ℚ) = round2 100 := by norm_num [round2, round_eq]
      _ ≤ _ := round2_mono (by linarith)

/-- C9: the correlation-penalty tiers are avg > 0.8 → ×0.3,
0.5 < avg ≤ 0.8 → ×round2(1 − 0.7·avg), avg ≤ 0.5 → ×1.0; for
total=10000, cash=10000, confidence=0.6, regime=ranging, 0 existing
positions, neutral valuation and candidate-vs-holdings average 120-day
correlation 0.9, the sized amount is min(9000·0.3·0.6·0.5·0.3,
3000, max_equity) = 810 RMB (whenever the equity headroom is ≥ 810);
and every sizing result is either 0 or at least the 100 RMB minimum. -/
theorem C9_sizing_with_correlation :
    (∀ a : ℚ, (4/5 < a → corrPenaltyTier a = 3/10) ∧
      (1/2 < a → a ≤ 4/5 → corrPenaltyTier a = round2 (1 - a * (7/10))) ∧
      (a ≤ 1/2 → corrPenaltyTier a = 1)) ∧
    (∀ M : ℚ, 810 ≤ M →
      calculatePositionSize 10000 10000 (3/5) "ranging" 0 "F" ["G"]
        (some 1) (some M) (some (9/10)) = 810) ∧
    (∀ (totalCapital currentCash confidence : ℚ) (regime : String) (existingPositions : Nat)
       (fundCode : String) (existingHoldings : List String) (vm me ac : Option ℚ),
      calculatePositionSize totalCapital currentCash confidence regime existingPositions
        fundCode existingHoldings vm me ac = 0 ∨
      100 ≤ calculatePositionSize totalCapital currentCash confidence regime existingPositions
        fundCode existingHoldings vm me ac) := by
  refine ⟨?_, ?_, ?_⟩
  · intro a
    refine ⟨?_, ?_, ?_⟩
    · intro h
      simp [corrPenaltyTier, if_pos h]
    · intro h1 h2
      rw [corrPenaltyTier, if_neg (by linarith), if_pos h1]
    · intro h
      rw [corrPenaltyTier, if_neg (by linarith), if_neg (by linarith)]
  · intro M hM
    have hcorr : getCorrelationPenalty ["G"] (some (9/10)) = 3/10 := by
      rw [getCorrelationPenalty]
      norm_num [corrPenaltyTier]
    rw [calculatePositionSize]
    rw [if_neg (show ¬ ((0:ℚ) ⊔ (10000 - 10000 * minCashReservePct) ≤ 0) by
      norm_num [minCashReservePct])]
    simp only [hcorr, minCashReservePct, maxSinglePositionPct]
    norm_num [regimeMultiplier]
    simp only [show ("F":String) ≠ "" from by decide,
      show ("ranging":String) ≠ "bull_strong" from by decide,
      show ("ranging":String) ≠ "bull_weak" from by decide, if_neg, ite_false, if_false]
    rw [if_neg (by push_neg; exact ⟨by norm_num, by linarith⟩)]
    rw [min_eq_left (le_min (by norm_num) hM)]
    norm_num [round2, round_eq]
  · intro totalCapital currentCash confidence regime existingPositions fundCode
      existingHoldings vm me ac
    rw [calculatePositionSize]
    split
    · exact Or.inl rfl
    · exact finalGate _

/-- Witness for C9: tier at 0.9 and the sizing scenario with ample
equity headroom. -/
theorem C9_sizing_with_correlation_witness :
    corrPenaltyTier (9/10) = 3/10 ∧
    calculatePositionSize 10000 10000 (3/5) "ranging" 0 "F" ["G"]
      (some 1) (some 100000) (some (9/10)) = 810 :=
  ⟨(C9_sizing_with_correlation.1 (9/10)).1 (by norm_num),
    C9_sizing_with_correlation.2.1 100000 (by norm_num)⟩

/-! ## C6 -/

theorem latestFold_mem (l : List NavRow) :
    ∀ (acc : Option NavRow) (x : NavRow),
      l.foldl (fun acc r => match acc with
        | none => some r
        | some a => if a.navDate < r.navDate then some r else some a) acc = some x →
      x ∈ l ∨ acc = some x := by
  induction l with
  | nil =>
    intro acc x h
    exact Or.inr h
  | cons hd tl ih =>
    intro acc x h
    simp only [List.foldl_cons] at h
    rcases ih _ x h with hmem | hacc
    · exact Or.inl (List.mem_cons_of_mem _ hmem)
    · cases acc with
      | none =>
        simp only [Option.some_inj] at hacc
        exact Or.inl (hacc ▸ List.mem_cons_self _ _)
      | some a =>
        simp only at hacc
        split at hacc
        · rw [Option.some_inj] at hacc
          exact Or.inl (hacc ▸ List.mem_cons_self _ _)
        · exact Or.inr hacc

theorem latestFold_ge (l : List NavRow) :
    ∀ (acc : Option NavRow) (x : NavRow),
      l.foldl (fun acc r => match acc with
        | none => some r
        | some a => if a.navDate < r.navDate then some r else some a) acc = some x →
      (∀ y ∈ l, y.navDate ≤ x.navDate) ∧ (∀ a, acc = some a → a.navDate ≤ x.navDate) := by
  induction l with
  | nil =>
    intro acc x h
    refine ⟨by simp, fun a ha => ?_⟩
    simp only [List.foldl_nil] at h
    rw [h, Option.some_inj] at ha
    exact le_of_eq (congrArg NavRow.navDate ha).symm
  | cons hd tl ih =>
    intro acc x h
    simp only [List.foldl_cons] at h
    obtain ⟨hy, hacc⟩ := ih _ x h
    have hstep : ∀ b, (match acc with
        | none => some hd
        | some a => if a.navDate < hd.navDate then some hd else some a) = some b →
        hd.navDate ≤ b.navDate ∧ (∀ a, acc = some a → a.navDate ≤ b.navDate) := by
      intro b hb
      cases acc with
      | none =>
        simp only [Option.some_inj] at hb
        exact ⟨le_of_eq (congrArg NavRow.navDate hb), fun a ha => Option.noConfusion ha⟩
      | some a =>
        simp only at hb
        split at hb
        · rw [Option.some_inj] at hb
          subst hb
          rename_i hlt
          exact ⟨le_rfl, fun a2 ha2 => by
            rw [Option.some_inj] at ha2
            subst ha2
            exact le_of_lt hlt⟩
        · rw [Option.some_inj] at hb
          subst hb
          rename_i hnlt
          exact ⟨not_lt.mp hnlt, fun a2 ha2 => by
            rw [Option.some_inj] at ha2
            subst ha2
            exact le_rfl⟩
    cases hb : (match acc with
        | none => some hd
        | some a => if a.navDate < hd.navDate then some hd else some a) with
    | none =>
      cases acc with
      | none => simp at hb
      | some a =>
        simp only at hb
        split at hb <;> exact Option.noConfusion hb
    | some b =>
      obtain ⟨hhd, hprev⟩ := hstep b hb
      rw [hb] at hacc
      have hbx : b.navDate ≤ x.navDate := hacc b rfl
      constructor
      · intro y hy2
        rcases List.mem_cons.mp hy2 with h1 | h2
        · subst h1
          exact le_trans hhd hbx
        · exact hy y h2
      · intro a ha
        exact le_trans (hprev a ha) hbx

theorem latestFold_some_ne_none (l : List NavRow) :
    ∀ a : NavRow,
      l.foldl (fun acc r => match acc with
        | none => some r
        | some a => if a.navDate < r.navDate then some r else some a) (some a) ≠ none := by
  induction l with
  | nil =>
    intro a h
    exact Option.noConfusion h
  | cons hd tl ih =>
    intro a
    simp only [List.foldl_cons]
    split
    · exact ih hd
    · exact ih a

theorem latestRowIn_spec (navs : List NavRow) (p : NavRow → Bool) (row : NavRow)
    (h : latestRowIn navs p = some row) :
    row ∈ navs ∧ p row = true ∧ ∀ y ∈ navs, p y = true → y.navDate ≤ row.navDate := by
  unfold latestRowIn at h
  have hmem := latestFold_mem _ _ _ h
  have hge := (latestFold_ge _ _ _ h).1
  rcases hmem with hm | hnone
  · have hmf := List.mem_filter.mp hm
    exact ⟨hmf.1, hmf.2, fun y hy hp => hge y (List.mem_filter.mpr ⟨hy, hp⟩)⟩
  · exact Option.noConfusion hnone

theorem latestRowIn_none (navs : List NavRow) (p : NavRow → Bool)
    (h : latestRowIn navs p = none) : ∀ y ∈ navs, p y = false := by
  unfold latestRowIn at h
  intro y hy
  by_contra hp
  have hyp : p y = true := by simpa using hp
  have hmemf : y ∈ navs.filter p := List.mem_filter.mpr ⟨hy, hyp⟩
  cases hf : navs.filter p with
  | nil =>
    rw [hf] at hmemf
    exact absurd hmemf (List.not_mem_nil _)
  | cons a rest =>
    rw [hf] at h
    simp only [List.foldl_cons] at h
    exact latestFold_some_ne_none rest a h

/-- C6 counterexample: a fund with NAVs at signal_date+1 and
signal_date+20 and N = 7.  The claim ("first NAV on or after
signal_date + N, fallback nearest later") picks the day-20 NAV (2.0);
`_get_nav_after` instead returns the day-1 NAV (1.0), the latest one at
or before the target. -/
theorem C6_nav_lookup_counterexample :
    getNavAfter [{ navDate := 1, nav := 1 }, { navDate := 20, nav := 2 }] 0 7 = some 1 ∧
    specNavAfter [{ navDate := 1, nav := 1 }, { navDate := 20, nav := 2 }] 0 7 = some 2 ∧
    getNavAfter [{ navDate := 1, nav := 1 }, { navDate := 20, nav := 2 }] 0 7 ≠
      specNavAfter [{ navDate := 1, nav := 1 }, { navDate := 20, nav := 2 }] 0 7 := by
  refine ⟨rfl, rfl, ?_⟩
  intro h
  rw [show getNavAfter [{ navDate := 1, nav := 1 }, { navDate := 20, nav := 2 }] 0 7 =
      some 1 from rfl,
    show specNavAfter [{ navDate := 1, nav := 1 }, { navDate := 20, nav := 2 }] 0 7 =
      some 2 from rfl, Option.some_inj] at h
  norm_num at h

/-- C6 (amended): for every pending validation row (`nav_after_7d`
null, `signal_date ≤ today − 7`, positive `nav_at_signal`),
`validate_pending` computes the realized return against the NAV that
`_get_nav_after` yields, which is the LATEST NAV within
[signal_date, signal_date + N]; only when that window holds no NAV does
it fall back — to the latest NAV strictly after signal_date, not the
nearest. -/
theorem C6_nav_lookup_amended :
    (∀ (navs : List NavRow) (sd days : Nat) (v : ℚ),
      getNavAfter navs sd days = some v →
        (∃ r ∈ navs, r.nav = v ∧ sd ≤ r.navDate ∧ r.navDate ≤ sd + days ∧
          (∀ r2 ∈ navs, sd ≤ r2.navDate → r2.navDate ≤ sd + days → r2.navDate ≤ r.navDate)) ∨
        ((∀ r2 ∈ navs, ¬ (sd ≤ r2.navDate ∧ r2.navDate ≤ sd + days)) ∧
          ∃ r ∈ navs, r.nav = v ∧ sd < r.navDate ∧
            (∀ r2 ∈ navs, sd < r2.navDate → r2.navDate ≤ r.navDate))) ∧
    (∀ (navdb : String → List NavRow) (today : Nat) (r : VRow) (navNow : ℚ),
      r.navAfter7d = none → r.signalDate ≤ today - 7 → 0 < r.navAtSignal →
      getNavAfter (navdb r.fundCode) r.signalDate 7 = some navNow →
      (validateRow7 navdb today r).return7d =
        some (round4 ((navNow - r.navAtSignal) / r.navAtSignal * 100)) ∧
      (validateRow7 navdb today r).isCorrect7d =
        some (checkDirection r.signalType ((navNow - r.navAtSignal) / r.navAtSignal * 100) 7)) := by
  constructor
  · intro navs sd days v hv
    unfold getNavAfter at hv
    simp only [] at hv
    cases h1 : latestRowIn navs
        (fun r => decide (sd ≤ r.navDate) && decide (r.navDate ≤ sd + days)) with
    | some row =>
      rw [h1, Option.some_inj] at hv
      obtain ⟨hm, hp, hmax⟩ := latestRowIn_spec _ _ _ h1
      simp only [Bool.and_eq_true, decide_eq_true_eq] at hp
      left
      refine ⟨row, hm, hv ▸ rfl, hp.1, hp.2, ?_⟩
      intro r2 hr2 ha hb
      exact hmax r2 hr2 (by simp [ha, hb])
    | none =>
      rw [h1] at hv
      have hempty := latestRowIn_none _ _ h1
      cases h2 : latestRowIn navs (fun r => decide (sd < r.navDate)) with
      | none =>
        rw [h2] at hv
        exact Option.noConfusion hv
      | some row =>
        rw [h2, Option.some_inj] at hv
        obtain ⟨hm, hp, hmax⟩ := latestRowIn_spec _ _ _ h2
        simp only [decide_eq_true_eq] at hp
        right
        constructor
        · intro r2 hr2 hc
          have hf := hempty r2 hr2
          simp only [] at hf
          have ht : (decide (sd ≤ r2.navDate) && decide (r2.navDate ≤ sd + days)) = true := by
            simp [hc.1, hc.2]
          rw [hf] at ht
          exact Bool.noConfusion ht
        · exact ⟨row, hm, hv ▸ rfl, hp, fun r2 hr2 hc => hmax r2 hr2 (by simp [hc])⟩
  · intro navdb today r navNow h7 hsd hpos hget
    unfold validateRow7
    rw [if_pos ⟨h7, hsd⟩, hget]
    simp only [if_neg (not_le.mpr hpos)]
    exact ⟨trivial, trivial⟩

/-- Witness for C6: a pending row (signal day 0, nav 1.0) with NAVs at
days 1 and 5 gets its 7-day return computed against the day-5 NAV 1.1. -/
theorem C6_nav_lookup_amended_witness :
    (validateRow7 (fun _ => [{ navDate := 1, nav := 1 }, { navDate := 5, nav := 11/10 }]) 30
      { signalDate := 0, fundCode := "F", strategyName := "composite", signalType := "buy",
        confidence := 7/10, regime := "ranging", navAtSignal := 1 }).return7d =
      some (round4 ((11/10 - (1:ℚ)) / 1 * 100)) ∧
    (validateRow7 (fun _ => [{ navDate := 1, nav := 1 }, { navDate := 5, nav := 11/10 }]) 30
      { signalDate := 0, fundCode := "F", strategyName := "composite", signalType := "buy",
        confidence := 7/10, regime := "ranging", navAtSignal := 1 }).isCorrect7d =
      some (checkDirection "buy" ((11/10 - (1:ℚ)) / 1 * 100) 7) :=
  C6_nav_lookup_amended.2
    (fun _ => [{ navDate := 1, nav := 1 }, { navDate := 5, nav := 11/10 }]) 30
    { signalDate := 0, fundCode := "F", strategyName := "composite", signalType := "buy",
      confidence := 7/10, regime := "ranging", navAtSignal := 1 }
    (11/10) rfl (Nat.zero_le _) (by norm_num) rfl

/-! ## C7 -/

/-- C7 counterexample: registering a second strategy under the existing
name "momentum" does not raise any DuplicateName error — it silently
succeeds and overwrites the registry entry. -/
theorem C7_duplicate_name_counterexample :
    registerStrategy [("momentum", 1/5)] "momentum" (3/10) =
      Except.ok [("momentum", 3/10)] := rfl

theorem lookup_overwrite (registry : List (String × ℚ)) (name : String) (weight : ℚ)
    (hc : (registry.map Prod.fst).contains name = true) :
    registryLookup (registry.map (fun p => if p.1 == name then (p.1, weight) else p)) name =
      some weight := by
  induction registry with
  | nil => simp at hc
  | cons hd tl ih =>
    by_cases hhd : hd.1 = name
    · simp [registryLookup, List.find?_cons, hhd]
    · have hbeq : (hd.1 == name) = false := by
        simp only [beq_eq_false_iff_ne, ne_eq]
        exact hhd
      have hc2 : (tl.map Prod.fst).contains name = true := by
        simp only [List.map_cons, List.contains_cons, Bool.or_eq_true] at hc
        rcases hc with h1 | h2
        · exact absurd (eq_of_beq h1).symm hhd
        · exact h2
      have ihr := ih hc2
      simp only [registryLookup] at ihr
      simp only [List.map_cons, hbeq, Bool.false_eq_true, if_false, registryLookup,
        List.find?_cons]
      exact ihr

theorem lookup_overwrite_other (registry : List (String × ℚ)) (name : String) (weight : ℚ)
    (other : String) (ho : other ≠ name) :
    registryLookup (registry.map (fun p => if p.1 == name then (p.1, weight) else p)) other =
      registryLookup registry other := by
  induction registry with
  | nil => rfl
  | cons hd tl ih =>
    simp only [registryLookup] at ih
    by_cases hhd : hd.1 = name
    · have hne : (hd.1 == other) = false := by
        simp only [beq_eq_false_iff_ne, ne_eq, hhd]
        exact fun h => ho h.symm
      have hyes : (hd.1 == name) = true := by
        simp only [beq_iff_eq]
        exact hhd
      simp only [List.map_cons, hyes, if_true, registryLookup, List.find?_cons, hne]
      exact ih
    · have hbeq : (hd.1 == name) = false := by
        simp only [beq_eq_false_iff_ne, ne_eq]
        exact hhd
      simp only [List.map_cons, hbeq, Bool.false_eq_true, if_false, registryLookup,
        List.find?_cons]
      cases hother : (hd.1 == other) with
      | true => rfl
      | false => exact ih

theorem find?_none_of_not_contains (registry : List (String × ℚ)) (name : String)
    (hc : ¬ (registry.map Prod.fst).contains name = true) :
    List.find? (fun p => p.1 == name) registry = none := by
  induction registry with
  | nil => rfl
  | cons hd tl ih =>
    simp only [List.map_cons, List.contains_cons, Bool.or_eq_true, not_or] at hc
    have hbeq : (hd.1 == name) = false := by
      simp only [beq_eq_false_iff_ne, ne_eq]
      intro h
      exact hc.1 (by simp [h])
    rw [List.find?_cons, hbeq]
    exact ih hc.2

/-- C7 (amended): registration never fails on a duplicate name — for any
name other than the unset default "base" it succeeds, binds the name to
the new weight (silently replacing an existing entry), and leaves every
other name's entry unchanged; the only failing registration is a class
whose `name` is still the base default. -/
theorem C7_registration_overwrite_amended :
    (∀ (registry : List (String × ℚ)) (name : String) (weight : ℚ),
      name ≠ "base" →
      ∃ reg2, registerStrategy registry name weight = Except.ok reg2 ∧
        registryLookup reg2 name = some weight ∧
        (∀ other, other ≠ name → registryLookup reg2 other = registryLookup registry other)) ∧
    (∀ (registry : List (String × ℚ)) (w : ℚ),
      registerStrategy registry "base" w =
        Except.error ("base must define a unique `name`")) := by
  constructor
  · intro registry name weight hname
    have hbeq : (name == "base") = false := by
      simp only [beq_eq_false_iff_ne, ne_eq]
      exact hname
    rw [registerStrategy, hbeq]
    simp only [Bool.false_eq_true, if_false]
    by_cases hc : (registry.map Prod.fst).contains name = true
    · rw [if_pos hc]
      exact ⟨_, rfl, lookup_overwrite registry name weight hc,
        fun other ho => lookup_overwrite_other registry name weight other ho⟩
    · rw [if_neg hc]
      refine ⟨_, rfl, ?_, ?_⟩
      · rw [registryLookup, List.find?_append, find?_none_of_not_contains registry name hc]
        simp [registryLookup]
      · intro other ho
        have hno : (name == other) = false := by
          simp only [beq_eq_false_iff_ne, ne_eq]
          exact fun h => ho h.symm
        rw [registryLookup, List.find?_append, registryLookup]
        cases hfind : List.find? (fun p => p.1 == other) registry with
        | some p => simp
        | none => simp [List.find?_cons, hno]
  · intro registry w
    rfl

/-- Witness for C7: registering "mean_reversion" (a fresh, non-"base"
name) into a registry holding "momentum" succeeds. -/
theorem C7_registration_overwrite_amended_witness :
    ∃ reg2, registerStrategy [("momentum", 1/5)] "mean_reversion" (1/4) = Except.ok reg2 ∧
      registryLookup reg2 "mean_reversion" = some (1/4) ∧
      (∀ other, other ≠ "mean_reversion" →
        registryLookup reg2 other = registryLookup [("momentum", 1/5)] other) :=
  C7_registration_overwrite_amended.1 [("momentum", 1/5)] "mean_reversion" (1/4) (by decide)

/-! ## C8 -/

theorem resolveModel_self (cm : String → ProviderModels) (model p : String) :
    resolveModelForProvider cm model p p = model := by
  simp [resolveModelForProvider]

theorem runProviderAux_calls_cons (world : Nat → DispatchOutcome) (cfg : RetryCfg)
    (p m : String) (r a k : Nat) (last : Option LLMErr) :
    ∃ tl, (runProviderAux world cfg p m (r+1) a k last).calls = (p, m) :: tl := by
  cases hw : world k with
  | ok t tok => exact ⟨[], by simp [runProviderAux, hw]⟩
  | preclassified e => exact ⟨[], by simp [runProviderAux, hw]⟩
  | raw exc =>
    simp only [runProviderAux, hw]
    split
    · exact ⟨[], rfl⟩
    · split
      · exact ⟨[], rfl⟩
      · exact ⟨_, rfl⟩

theorem runChain_cons (world : Nat → DispatchOutcome) (cfg : RetryCfg)
    (cm : String → ProviderModels) (primary model p : String) (rest : List String)
    (k : Nat) (last : Option LLMErr) :
    ∃ cs ds,
      (runChain world cfg cm primary model (p :: rest) k last).calls =
        (runProviderAux world cfg p (resolveModelForProvider cm model p primary)
          cfg.maxRetries 0 k last).calls ++ cs ∧
      (runChain world cfg cm primary model (p :: rest) k last).delays =
        (runProviderAux world cfg p (resolveModelForProvider cm model p primary)
          cfg.maxRetries 0 k last).delays ++ ds := by
  simp only [runChain]
  cases hRs : (runProviderAux world cfg p (resolveModelForProvider cm model p primary)
      cfg.maxRetries 0 k last).step with
  | finished r => exact ⟨[], [], by simp, by simp⟩
  | nextProvider last2 => exact ⟨_, _, rfl, rfl⟩

theorem runChain_backoff (world : Nat → DispatchOutcome) (cfg : RetryCfg)
    (cm : String → ProviderModels) (primary model : String) (rest : List String) (exc : PyExc)
    (h0 : world 0 = .raw exc)
    (hnr : categorize exc ≠ .rateLimit)
    (hna : categorize exc ≠ .auth)
    (hnb : categorize exc ≠ .billing)
    (hmr : 2 ≤ cfg.maxRetries) :
    ∃ tc td,
      (runChain world cfg cm primary model (primary :: rest) 0 none).calls =
        (primary, model) :: (primary, model) :: tc ∧
      (runChain world cfg cm primary model (primary :: rest) 0 none).delays =
        min (cfg.backoffBase ^ 0) cfg.backoffMax :: td := by
  obtain ⟨j, hj⟩ : ∃ j, cfg.maxRetries = j + 2 := ⟨cfg.maxRetries - 2, by omega⟩
  have hret : (classifyExc exc primary model).retryable = true := by
    simp [LLMErr.retryable, classifyExc, hna, hnb]
  have hcat : ¬ ((classifyExc exc primary model).category = ErrorCategory.rateLimit) := hnr
  have hstep1 : runProviderAux world cfg primary model (j + 2) 0 0 none =
      ⟨(runProviderAux world cfg primary model (j + 1) 1 1
          (some (classifyExc exc primary model))).step,
       (runProviderAux world cfg primary model (j + 1) 1 1
          (some (classifyExc exc primary model))).nextIdx,
       (primary, model) :: (runProviderAux world cfg primary model (j + 1) 1 1
          (some (classifyExc exc primary model))).calls,
       min (cfg.backoffBase ^ 0) cfg.backoffMax ::
         (runProviderAux world cfg primary model (j + 1) 1 1
          (some (classifyExc exc primary model))).delays⟩ := by
    simp only [runProviderAux, h0, hret, Bool.not_true, Bool.false_eq_true, if_false,
      if_neg hcat]
  obtain ⟨tl, htl⟩ := runProviderAux_calls_cons world cfg primary model j 1 1
    (some (classifyExc exc primary model))
  obtain ⟨cs, ds, hcalls, hdelays⟩ := runChain_cons world cfg cm primary model primary rest 0 none
  rw [resolveModel_self, hj, hstep1] at hcalls hdelays
  refine ⟨tl ++ cs, (runProviderAux world cfg primary model (j + 1) 1 1
      (some (classifyExc exc primary model))).delays ++ ds, ?_, ?_⟩
  · rw [hcalls, htl]
    simp
  · rw [hdelays]
    simp

/-- C8: when the primary provider's first attempt raises an error
classified RATE_LIMIT and a fallback provider is available, `call_llm`
makes no further attempt against the primary: it re-resolves the model by
role for the fallback and dispatches to it, so a successful fallback call
means exactly 2 total attempts with no backoff sleep; a retryable
non-RATE_LIMIT first error instead stays on the same provider and model,
sleeping `min(base^0, cap)` before the second attempt; and on a provider
switch a model registered as the original provider's analysis tier
resolves to the target's analysis-tier model. -/
theorem C8_rate_limit_fallback :
    (∀ (world : Nat → DispatchOutcome) (cfg : RetryCfg) (cm : String → ProviderModels)
       (ak gk : Bool) (primary model : String) (exc : PyExc) (t : String) (tok : Nat)
       (fb : String),
      world 0 = .raw exc → categorize exc = .rateLimit → world 1 = .ok t tok →
      1 ≤ cfg.maxRetries → fallbackProvider primary ak gk = some fb →
      (callLLM world cfg cm true ak gk primary model).result = Except.ok (t, tok) ∧
      (callLLM world cfg cm true ak gk primary model).calls =
        [(primary, model), (fb, resolveModelForProvider cm model fb primary)] ∧
      (callLLM world cfg cm true ak gk primary model).delays = []) ∧
    (∀ (world : Nat → DispatchOutcome) (cfg : RetryCfg) (cm : String → ProviderModels)
       (ef ak gk : Bool) (primary model : String) (exc : PyExc),
      world 0 = .raw exc → categorize exc ≠ .rateLimit → categorize exc ≠ .auth →
      categorize exc ≠ .billing → 2 ≤ cfg.maxRetries →
      ∃ tc td,
        (callLLM world cfg cm ef ak gk primary model).calls =
          (primary, model) :: (primary, model) :: tc ∧
        (callLLM world cfg cm ef ak gk primary model).delays =
          min (cfg.backoffBase ^ 0) cfg.backoffMax :: td) ∧
    (∀ (cm : String → ProviderModels) (model p1 p2 a : String),
      p2 ≠ p1 → (cm p1).analysisModel = some model → (cm p2).analysisModel = some a →
      resolveModelForProvider cm model p2 p1 = a) := by
  refine ⟨?_, ?_, ?_⟩
  · intro world cfg cm ak gk primary model exc t tok fb h0 h429 h1 hmr hfb
    obtain ⟨j, hj⟩ : ∃ j, cfg.maxRetries = j + 1 := ⟨cfg.maxRetries - 1, by omega⟩
    have hcat : (classifyExc exc primary model).category = .rateLimit := h429
    have hret : (classifyExc exc primary model).retryable = true := by
      simp [LLMErr.retryable, hcat]
    have hstep1 : runProviderAux world cfg primary model (j + 1) 0 0 none =
        ⟨.nextProvider (some (classifyExc exc primary model)), 1, [(primary, model)], []⟩ := by
      simp only [runProviderAux, h0, hret, Bool.not_true, Bool.false_eq_true, if_false,
        if_pos hcat]
    have hstep2 : runProviderAux world cfg fb (resolveModelForProvider cm model fb primary)
        (j + 1) 0 1 (some (classifyExc exc primary model)) =
        ⟨.finished (Except.ok (t, tok)), 2,
          [(fb, resolveModelForProvider cm model fb primary)], []⟩ := by
      simp only [runProviderAux, h1]
    simp only [callLLM, hfb, if_pos rfl]
    simp only [runChain, resolveModel_self, hj, hstep1, hstep2]
    exact ⟨trivial, rfl, rfl⟩
  · intro world cfg cm ef ak gk primary model exc h0 hnr hna hnb hmr
    simp only [callLLM, List.singleton_append]
    exact runChain_backoff world cfg cm primary model _ exc h0 hnr hna hnb hmr
  · intro cm model p1 p2 a hne h1 h2
    have hbeq : (p2 == p1) = false := by
      simp only [beq_eq_false_iff_ne, ne_eq]
      exact hne
    rw [resolveModelForProvider, hbeq]
    simp only [Bool.false_eq_true, if_false, h1, if_pos rfl, h2, Option.getD_some, if_true]

/-- Witness for C8: a 429 on the first Gemini attempt falls over to
Anthropic, whose decision-tier model answers on the second (and last)
attempt; the model tiers mirror src/config.py. -/
theorem C8_rate_limit_fallback_witness :
    (callLLM
      (fun k => if k = 0 then DispatchOutcome.raw ⟨"ClientError", "429 RESOURCE_EXHAUSTED",
        some 429⟩ else DispatchOutcome.ok "ok" 7)
      ⟨3, 2, 8⟩
      (fun p => if p = "gemini" then
          ⟨some "gemini-2.0-flash", some "gemini-2.5-pro", some "gemini-2.5-pro"⟩
        else ⟨some "claude-haiku-4-5-20251001", some "claude-sonnet-4-6",
          some "claude-opus-4-6"⟩)
      true true true "gemini" "gemini-2.5-pro").result = Except.ok ("ok", 7) ∧
    (callLLM
      (fun k => if k = 0 then DispatchOutcome.raw ⟨"ClientError", "429 RESOURCE_EXHAUSTED",
        some 429⟩ else DispatchOutcome.ok "ok" 7)
      ⟨3, 2, 8⟩
      (fun p => if p = "gemini" then
          ⟨some "gemini-2.0-flash", some "gemini-2.5-pro", some "gemini-2.5-pro"⟩
        else ⟨some "claude-haiku-4-5-20251001", some "claude-sonnet-4-6",
          some "claude-opus-4-6"⟩)
      true true true "gemini" "gemini-2.5-pro").calls =
      [("gemini", "gemini-2.5-pro"),
       ("anthropic", resolveModelForProvider
         (fun p => if p = "gemini" then
             ⟨some "gemini-2.0-flash", some "gemini-2.5-pro", some "gemini-2.5-pro"⟩
           else ⟨some "claude-haiku-4-5-20251001", some "claude-sonnet-4-6",
             some "claude-opus-4-6"⟩)
         "gemini-2.5-pro" "anthropic" "gemini")] ∧
    (callLLM
      (fun k => if k = 0 then DispatchOutcome.raw ⟨"ClientError", "429 RESOURCE_EXHAUSTED",
        some 429⟩ else DispatchOutcome.ok "ok" 7)
      ⟨3, 2, 8⟩
      (fun p => if p = "gemini" then
          ⟨some "gemini-2.0-flash", some "gemini-2.5-pro", some "gemini-2.5-pro"⟩
        else ⟨some "claude-haiku-4-5-20251001", some "claude-sonnet-4-6",
          some "claude-opus-4-6"⟩)
      true true true "gemini" "gemini-2.5-pro").delays = [] :=
  C8_rate_limit_fallback.1
    (fun k => if k = 0 then DispatchOutcome.raw ⟨"ClientError", "429 RESOURCE_EXHAUSTED",
      some 429⟩ else DispatchOutcome.ok "ok" 7)
    ⟨3, 2, 8⟩
    (fun p => if p = "gemini" then
        ⟨some "gemini-2.0-flash", some "gemini-2.5-pro", some "gemini-2.5-pro"⟩
      else ⟨some "claude-haiku-4-5-20251001", some "claude-sonnet-4-6",
        some "claude-opus-4-6"⟩)
    true true "gemini" "gemini-2.5-pro"
    ⟨"ClientError", "429 RESOURCE_EXHAUSTED", some 429⟩ "ok" 7 "anthropic"
    rfl rfl rfl (by norm_num) rfl

end Pixiu
